import Mathlib

/-!
# `BaseEllipsoid` (lib/gpu/base_ellipsoid.cpp): step orchestration of the ellipsoid accelerator core

Shallow embedding of the member functions of `BaseEllipsoid<numtyp, acctyp>`.

* The object is a record `BaseEllipsoid`; every member function is a function from the record
  (and its arguments) to the new record (and its results).
* The collaborators (`device`, `atom`, `ans`, `nbor`, `hd_balancer`, the timers, the kernels, MPI)
  live outside this file.  Every call made to them is appended, in program order, to the field
  `trace`; the values they hand back are read from a record `Ext`.  The entry of the two
  neighbor-list member functions `reset_nbors` and `build_nbor_list` is recorded in `trace` too.
* `int` values are `Int`; `int*` arrays are total functions; loop counters that start at `0` and
  only count upwards are `Nat`.
* `double` arguments that are only forwarded to a collaborator are left out of the argument lists
  (`cell_size`, `gpu_split`, `cpu_time`, `host_x`, `host_quat`, `numj`, `firstneigh`, `sublo`, ...):
  what a collaborator answers for them is a field of `Ext`.
-/

namespace LAMMPS_AL

/-- The list handed to the neighbor manager and to the answer read-back, and returned by the
host-list `compute`: either the caller's `ilist` or `host_olist.begin()`. -/
inductive ListRef where
  | ilist
  | host_olist
  deriving DecidableEq, Repr

/-- The three `UCL_Program` objects owned by the class. -/
inductive Program where
  | nbor_program
  | ellipsoid_program
  | lj_program
  deriving DecidableEq, Repr

/-- Calls issued by the member functions, in the order of the source text. -/
inductive Call where
  | gpu_mode
  | first_host_count (nlocal : Int) (gpu_nbor : Bool)
  | threads_per_charge
  | device_init (nlocal host_nlocal nall maxspecial gpu_host max_nbors : Int)
  | pair_block_size
  | new_program (p : Program)
  | load_string (p : Program)
  | set_function (kernel : String)
  | balancer_init (gpu_nbor : Bool)
  | timer_init (timer : String)
  | timer_zero (timer : String)
  | cerr (msg : String)
  | dev_ans_zero
  | olist_alloc
  | estimate_gpu_overhead
  | mpi_reduce
  | all_avg_split
  | max_gpu_bytes
  | fprintf_summary
  | olist_clear
  | kernel_clear (kernel : String)
  | delete_program (p : Program)
  | timer_clear (timer : String)
  | balancer_clear
  | nbor_clear
  | ans_clear
  | device_clear
  | acc_timers
  | zero_timers
  | ago_first (f_ago : Int)
  | balance (ago inum_full : Int)
  | balance_cpu_time
  | get_gpu_count (ago inum_full : Int)
  | ans_inum (n : Int)
  | reset_nbors (nall inum osize : Int)
  | build_nbor_list (inum host_inum nall : Int)
  | max_nbor_loop (inum : Int)
  | resize_atom (nall : Int)
  | resize_local (nlocal host_inum max_nbors olist_size : Int)
  | get_host (inum : Int) (list : ListRef) (block_size : Int)
  | copy_unpacked (inum mn : Int)
  | cast_copy_x
  | nbor_build_nbor_list (inum host_inum nall : Int)
  | gpu_bytes
  | cast_x_data
  | cast_quat_data
  | start_timer
  | add_x_data
  | add_quat_data
  | loop (eflag vflag : Bool)
  | copy_answers (eflag vflag eatom vatom : Bool) (list : Option ListRef)
  | add_ans_object
  | stop_timer
  deriving Repr

/-- Modelled from the spec: the timing ledger of the member timers declared in
base_ellipsoid.h (`time_lj`, `time_nbor1`, `time_ellipsoid`, `time_nbor2`, `time_ellipsoid2`),
one counter of elapsed ticks per phase. -/
structure Timers where
  time_lj : Nat
  time_nbor1 : Nat
  time_ellipsoid : Nat
  time_nbor2 : Nat
  time_ellipsoid2 : Nat
  deriving DecidableEq, Repr

/-- The ledger with every counter at zero. -/
def Timers.zeroed : Timers := ⟨0, 0, 0, 0, 0⟩

/-- What the collaborators and the headers outside this file answer during one member call. -/
structure Ext where
  /-- the enumerator `ELLIPSE_ELLIPSE` -/
  ELLIPSE_ELLIPSE : Int
  /-- the enumerator `PairGPUDevice::GPU_NEIGH` -/
  GPU_NEIGH : Int
  /-- the constant `UCL_SUCCESS` -/
  UCL_SUCCESS : Int
  /-- result of `device->gpu_mode()` -/
  gpu_mode : Int
  /-- result of `hd_balancer.first_host_count(nlocal,gpu_split,gpu_nbor)` -/
  first_host_count : Int → Bool → Int
  /-- result of `device->threads_per_charge()` -/
  threads_per_charge : Int
  /-- result of `device->init(*ans,false,true,nlocal,host_nlocal,nall,nbor,maxspecial,_gpu_host,max_nbors,
  cell_size,true)` -/
  device_init : Int → Int → Int → Int → Int → Int → Int
  /-- result of `device->pair_block_size()` -/
  pair_block_size : Int
  /-- result of `host_olist.alloc(nbor->max_atoms(),*ucl_device)` -/
  olist_alloc : Int
  /-- result of `ans->gpu_bytes()+nbor->gpu_bytes()` (a byte total) -/
  gpu_bytes : Nat
  /-- result of `atom->max_gpu_bytes()` (a byte total) -/
  max_gpu_bytes : Nat
  /-- result of `device->replica_me()` -/
  replica_me : Int
  /-- the outcome of the test `times[5]>0.0` on the reduced cast time -/
  cast_time_positive : Bool
  /-- the effect of `acc_timers()` on the ledger (timer accumulation) -/
  acc_timers : Timers → Timers
  /-- result of `hd_balancer.ago_first(f_ago)` -/
  ago_first : Int → Int
  /-- result of `hd_balancer.balance(ago,inum_full,cpu_time)` -/
  balance : Int → Int → Int
  /-- result of `hd_balancer.get_gpu_count(ago,inum_full)` -/
  get_gpu_count : Int → Int → Int
  /-- result of `nbor->max_nbor_loop(inum,numj,ilist)` -/
  max_nbor_loop : Int → Int
  /-- result of `nbor->max_nbors()` -/
  max_nbors : Int
  /-- whether the buffer growth requested by `resize_atom(nall,success)` succeeds -/
  resize_atom_ok : Int → Bool
  /-- whether the buffer growth requested by
  `resize_local(nlocal,host_inum,max_nbors,olist_size,success)` succeeds -/
  resize_local_ok : Int → Int → Int → Int → Bool
  /-- what `resize_local` leaves in the `host_olist` buffer, whose requested size it receives -/
  resize_local_olist : (Nat → Int) → (Nat → Int)
  /-- result of `nbor->build_nbor_list(...,success,mn)`: the flag it leaves in `success` (given the flag it
  received) and the neighbor bound `mn` -/
  nbor_build : Bool → Bool × Int

/-- The data members of `BaseEllipsoid` read or written in base_ellipsoid.cpp. -/
structure BaseEllipsoid where
  _compiled : Bool
  /-- whether `nbor_program` points at a live `UCL_Program` -/
  nbor_program : Bool
  /-- whether `ellipsoid_program` points at a live `UCL_Program` -/
  ellipsoid_program : Bool
  /-- whether `lj_program` points at a live `UCL_Program` -/
  lj_program : Bool
  _max_bytes : Nat
  _max_an_bytes : Nat
  nbor_time_avail : Bool
  /-- whether `screen` is a non-null `FILE*` -/
  screen : Bool
  _threads_per_atom : Int
  _block_size : Int
  /-- whether `ucl_device` and `atom` have been bound to the device -/
  device_bound : Bool
  _host_form : Int → Int → Int
  _multiple_forms : Bool
  host_olist : Nat → Int
  _last_ellipse : Int
  _max_last_ellipse : Int
  /-- the particle count held by the answer accumulator, set by `ans->inum(n)` -/
  ans_inum : Int
  timers : Timers
  trace : List Call

namespace BaseEllipsoid

/-- Append one call to the trace. -/
def call (s : BaseEllipsoid) (c : Call) : BaseEllipsoid :=
  { s with trace := s.trace ++ [c] }

/-- Append several calls to the trace. -/
def calls (s : BaseEllipsoid) (cs : List Call) : BaseEllipsoid :=
  { s with trace := s.trace ++ cs }

/-- The constructor `BaseEllipsoid() : _compiled(false), _max_bytes(0)`: the remaining members
are not initialised by it; they are given fixed values here. -/
def fresh : BaseEllipsoid :=
  { _compiled := false, nbor_program := false, ellipsoid_program := false, lj_program := false,
    _max_bytes := 0, _max_an_bytes := 0, nbor_time_avail := false, screen := false,
    _threads_per_atom := 0, _block_size := 0, device_bound := false,
    _host_form := fun _ _ => 0, _multiple_forms := false, host_olist := fun _ => 0,
    _last_ellipse := 0, _max_last_ellipse := 0, ans_inum := 0, timers := Timers.zeroed,
    trace := [] }

/-- The loop `for (int i=lo; i<hi; i++) body(i)` over a state `acc`. -/
def forLoop {α : Type} (lo hi : Int) (body : Int → α → α) (init : α) : α :=
  (List.range (hi - lo).toNat).foldl (fun acc (k : Nat) => body (lo + (k : Int)) acc) init

/-- Member function `compile_kernels(dev, ellipsoid_string, lj_string)`. -/
def compile_kernels (s : BaseEllipsoid) : BaseEllipsoid :=
  if s._compiled then
    s
  else
    let s := { s.call (.new_program .nbor_program) with nbor_program := true }
    let s := s.calls [.load_string .nbor_program, .set_function "kernel_nbor_fast",
      .set_function "kernel_nbor"]
    let s := { s.call (.new_program .ellipsoid_program) with ellipsoid_program := true }
    let s := s.calls [.load_string .ellipsoid_program, .set_function "kernel_ellipsoid"]
    let s := { s.call (.new_program .lj_program) with lj_program := true }
    let s := s.calls [.load_string .lj_program, .set_function "kernel_sphere_ellipsoid",
      .set_function "kernel_lj_fast", .set_function "kernel_lj"]
    { s with _compiled := true }

/-- The form scan of `init_base`:
`for (i=1; i<ntypes; i++) for (j=i; j<ntypes; j++) if (_host_form[i][j]!=ELLIPSE_ELLIPSE)
_multiple_forms=true;` started from `_multiple_forms=false`. -/
def form_scan (e : Ext) (_host_form : Int → Int → Int) (ntypes : Int) : Bool :=
  forLoop 1 ntypes (fun i mf =>
    forLoop i ntypes (fun j mf =>
      if _host_form i j ≠ e.ELLIPSE_ELLIPSE then true else mf) mf) false

/-- How a call of `init_base` ends: it returns a status, or it leaves through `exit(code)`. -/
inductive InitOutcome where
  | returned (status : Int) (s : BaseEllipsoid)
  | exited (code : Int) (s : BaseEllipsoid)

/-- Member function `init_base(nlocal, nall, max_nbors, maxspecial, cell_size, gpu_split, _screen, ntypes,
h_form, ellipsoid_program, lj_program)`. The two statements after the `if/else` that returns
`0` or `-3` (`_max_an_bytes=...; return 0;`) cannot be reached and have no counterpart. -/
def init_base (e : Ext) (s : BaseEllipsoid) (nlocal nall max_nbors maxspecial : Int)
    (_screen : Bool) (ntypes : Int) (h_form : Int → Int → Int) : InitOutcome :=
  let s := { s with nbor_time_avail := false }
  let s := { s with screen := _screen }
  let s := s.call .gpu_mode
  let gpu_nbor : Bool := decide (e.gpu_mode = e.GPU_NEIGH)
  let s := s.call (.first_host_count nlocal gpu_nbor)
  let host_nlocal := e.first_host_count nlocal gpu_nbor
  let _gpu_host : Int := if host_nlocal > 0 then 1 else 0
  let s := { s.call .threads_per_charge with _threads_per_atom := e.threads_per_charge }
  let s := s.call (.device_init nlocal host_nlocal nall maxspecial _gpu_host max_nbors)
  let success := e.device_init nlocal host_nlocal nall maxspecial _gpu_host max_nbors
  if success ≠ 0 then
    .returned success s
  else
    let s := { s with device_bound := true }
    let s := { s.call .pair_block_size with _block_size := e.pair_block_size }
    let s := s.compile_kernels
    let s := s.call (.balancer_init gpu_nbor)
    let s := s.calls [.timer_init "time_lj", .timer_init "time_nbor1",
      .timer_init "time_ellipsoid", .timer_init "time_nbor2", .timer_init "time_ellipsoid2",
      .timer_zero "time_lj", .timer_zero "time_nbor1", .timer_zero "time_ellipsoid",
      .timer_zero "time_nbor2", .timer_zero "time_ellipsoid2"]
    let s := { s with timers := Timers.zeroed }
    let s := { s with _host_form := h_form }
    let s := { s with _multiple_forms := form_scan e h_form ntypes }
    if s._multiple_forms && decide (host_nlocal > 0) then
      .exited 1 (s.call (.cerr "Cannot use Gayberne with multiple forms and GPU neighbor.\n"))
    else
      let s := if s._multiple_forms then s.call .dev_ans_zero else s
      let s := s.call .olist_alloc
      if e.olist_alloc = e.UCL_SUCCESS then
        .returned 0 s
      else
        .returned (-3) s

/-- Member function `estimate_gpu_overhead()`. -/
def estimate_gpu_overhead (s : BaseEllipsoid) : BaseEllipsoid :=
  s.call .estimate_gpu_overhead

/-- Modelled from the spec: `acc_timers()` is declared in base_ellipsoid.h, which is not part of
the sources at hand; it is the timer accumulation point of a step. Its effect on the ledger is
the parameter `e.acc_timers`. -/
def acc_timers (e : Ext) (s : BaseEllipsoid) : BaseEllipsoid :=
  { s.call .acc_timers with timers := e.acc_timers s.timers }

/-- Modelled from the spec: `zero_timers()` is declared in base_ellipsoid.h, which is not part
of the sources at hand; a zero-work step must "zero all timers". -/
def zero_timers (s : BaseEllipsoid) : BaseEllipsoid :=
  { s.call .zero_timers with timers := Timers.zeroed }

/-- Modelled from the spec: `resize_atom(nall, success)` is declared in base_ellipsoid.h, which
is not part of the sources at hand; "a resize failure sets a success flag to false". -/
def resize_atom (e : Ext) (s : BaseEllipsoid) (nall : Int) (success : Bool) :
    BaseEllipsoid × Bool :=
  (s.call (.resize_atom nall), success && e.resize_atom_ok nall)

/-- Modelled from the spec: `resize_local(nlocal, host_inum, max_nbors, olist_size, success)`
is declared in base_ellipsoid.h, which is not part of the sources at hand; "a resize failure
sets a success flag to false". It receives the size wanted for `host_olist`; what it leaves in
that buffer is the parameter `e.resize_local_olist`. -/
def resize_local (e : Ext) (s : BaseEllipsoid) (nlocal host_inum max_nbors olist_size : Int)
    (success : Bool) : BaseEllipsoid × Bool :=
  ({ s.call (.resize_local nlocal host_inum max_nbors olist_size) with
      host_olist := e.resize_local_olist s.host_olist },
   success && e.resize_local_ok nlocal host_inum max_nbors olist_size)

/-- Member function `output_times()`. The nine phase times are read from the collaborators and reduced over
the replica; they only reach the printed summary. -/
def output_times (e : Ext) (s : BaseEllipsoid) : BaseEllipsoid :=
  let s := s.acc_timers e
  let s := s.calls [.mpi_reduce, .all_avg_split]
  let s := { s.call .max_gpu_bytes with _max_bytes := s._max_bytes + e.max_gpu_bytes }
  let s := s.call .mpi_reduce
  let s :=
    if e.replica_me = 0 then
      if s.screen && e.cast_time_positive then s.call .fprintf_summary else s
    else s
  { s with _max_bytes := 0 }

/-- Member function `clear_base()`. -/
def clear_base (e : Ext) (s : BaseEllipsoid) : BaseEllipsoid :=
  let s := s.output_times e
  let s := s.call .olist_clear
  let s :=
    if s._compiled then
      let s := s.calls [.kernel_clear "k_nbor_fast", .kernel_clear "k_nbor",
        .kernel_clear "k_ellipsoid", .kernel_clear "k_sphere_ellipsoid",
        .kernel_clear "k_lj_fast", .kernel_clear "k_lj"]
      let s := { s.call (.delete_program .nbor_program) with nbor_program := false }
      let s := { s.call (.delete_program .ellipsoid_program) with ellipsoid_program := false }
      let s := { s.call (.delete_program .lj_program) with lj_program := false }
      { s with _compiled := false }
    else s
  let s := s.calls [.timer_clear "time_nbor1", .timer_clear "time_ellipsoid",
    .timer_clear "time_nbor2", .timer_clear "time_ellipsoid2", .timer_clear "time_lj"]
  s.calls [.balancer_clear, .nbor_clear, .ans_clear, .device_clear]

/-- The first loop of `reset_nbors`, from `p=0`:
`for (i=0; i<osize; i++) { itype=type[ilist[i]];
if (_host_form[itype][itype]==ELLIPSE_ELLIPSE) { host_olist[p]=ilist[i]; p++; } }`.
The state is the buffer `host_olist` and the counter `p`. -/
def reset_loop_ellipse (e : Ext) (_host_form : Int → Int → Int) (osize : Int)
    (ilist : Nat → Int) (type : Int → Int) (st : (Nat → Int) × Nat) : (Nat → Int) × Nat :=
  (List.range osize.toNat).foldl (fun st i =>
    let itype := type (ilist i)
    if _host_form itype itype = e.ELLIPSE_ELLIPSE then
      (Function.update st.1 st.2 (ilist i), st.2 + 1)
    else st) st

/-- The second loop of `reset_nbors`, continuing with the same `p`:
`for (i=0; i<osize; i++) { itype=type[ilist[i]];
if (_host_form[itype][itype]!=ELLIPSE_ELLIPSE) { host_olist[p]=ilist[i]; p++; } }`. -/
def reset_loop_other (e : Ext) (_host_form : Int → Int → Int) (osize : Int)
    (ilist : Nat → Int) (type : Int → Int) (st : (Nat → Int) × Nat) : (Nat → Int) × Nat :=
  (List.range osize.toNat).foldl (fun st i =>
    let itype := type (ilist i)
    if _host_form itype itype ≠ e.ELLIPSE_ELLIPSE then
      (Function.update st.1 st.2 (ilist i), st.2 + 1)
    else st) st

/-- Member function `reset_nbors(nall, inum, osize, ilist, numj, type, firstneigh, success)`; the second
component of the result is the value left in `success`. -/
def reset_nbors (e : Ext) (s : BaseEllipsoid) (nall inum osize : Int) (ilist : Nat → Int)
    (type : Int → Int) : BaseEllipsoid × Bool :=
  let s := s.call (.reset_nbors nall inum osize)
  let success := true
  let s := { s with nbor_time_avail := true }
  let s := s.call (.max_nbor_loop inum)
  let mn := e.max_nbor_loop inum
  let r := s.resize_atom e nall success
  let r := r.1.resize_local e inum 0 mn osize r.2
  let s := r.1
  let success := r.2
  if !success then
    (s, success)
  else if s._multiple_forms then
    let st := reset_loop_ellipse e s._host_form osize ilist type (s.host_olist, 0)
    let s := { s with host_olist := st.1 }
    let s := { s with _max_last_ellipse := (st.2 : Int) }
    let s := { s with _last_ellipse := min inum s._max_last_ellipse }
    let st := reset_loop_other e s._host_form osize ilist type (s.host_olist, st.2)
    let s := { s with host_olist := st.1 }
    let s := s.call (.get_host inum .host_olist s._block_size)
    let s := s.call (.copy_unpacked inum mn)
    (s, success)
  else
    let s := { s with _last_ellipse := inum }
    let s := { s with _max_last_ellipse := inum }
    let s := s.call (.get_host inum .ilist s._block_size)
    let s := s.call (.copy_unpacked inum mn)
    let s := s.call .gpu_bytes
    let bytes := e.gpu_bytes
    let s := if bytes > s._max_an_bytes then { s with _max_an_bytes := bytes } else s
    (s, success)

/-- Member function `build_nbor_list(inum, host_inum, nall, host_x, host_type, sublo, subhi, tag, nspecial,
special, success)`; the second component of the result is the value left in `success`. -/
def build_nbor_list (e : Ext) (s : BaseEllipsoid) (inum host_inum nall : Int) :
    BaseEllipsoid × Bool :=
  let s := s.call (.build_nbor_list inum host_inum nall)
  let s := { s with nbor_time_avail := true }
  let success := true
  let r := s.resize_atom e nall success
  let r := r.1.resize_local e inum host_inum e.max_nbors 0 r.2
  let s := r.1
  let success := r.2
  if !success then
    (s, success)
  else
    let s := s.call .cast_copy_x
    let s := s.call (.nbor_build_nbor_list inum host_inum nall)
    let built := e.nbor_build success
    let success := built.1
    let mn := built.2
    let s := s.call (.copy_unpacked inum mn)
    let s := { s with _last_ellipse := inum }
    let s := { s with _max_last_ellipse := inum }
    let s := s.call .gpu_bytes
    let bytes := e.gpu_bytes
    let s := if bytes > s._max_an_bytes then { s with _max_an_bytes := bytes } else s
    (s, success)

/-- What a call of the host-list `compute` leaves behind: the returned pointer (`none` is
`NULL`), the reference arguments `host_start` and `success`, and the object. -/
structure ComputeResult where
  ret : Option ListRef
  host_start : Int
  success : Bool
  state : BaseEllipsoid

/-- The part of the host-list `compute` after the neighbor list is in place: choice of the
list, casts and uploads, kernel loop, answer read-back. -/
def compute_dispatch (s : BaseEllipsoid) (eflag vflag eatom vatom : Bool) (host_start : Int)
    (success : Bool) : ComputeResult :=
  let list := if s._multiple_forms then ListRef.host_olist else ListRef.ilist
  let s := s.calls [.cast_x_data, .cast_quat_data]
  let s := s.call .start_timer
  let s := s.calls [.add_x_data, .add_quat_data]
  let s := s.call (.loop eflag vflag)
  let s := s.call (.copy_answers eflag vflag eatom vatom (some list))
  let s := s.call .add_ans_object
  let s := s.call .stop_timer
  ⟨some list, host_start, success, s⟩

/-- Member function `int* compute(f_ago, inum_full, nall, host_x, host_type, ilist, numj, firstneigh, eflag,
vflag, eatom, vatom, host_start, cpu_time, success, host_quat)`: the entry point that is given
the neighbor list of the host. `success` is the value the caller holds in the reference
argument when it calls; `host_start` is assigned on every path. -/
def compute (e : Ext) (s : BaseEllipsoid) (f_ago inum_full nall : Int) (host_type : Int → Int)
    (ilist : Nat → Int) (eflag vflag eatom vatom : Bool) (success : Bool) : ComputeResult :=
  let s := s.acc_timers e
  if inum_full = 0 then
    let host_start := 0
    let s := s.zero_timers
    ⟨none, host_start, success, s⟩
  else
    let s := s.call (.ago_first f_ago)
    let ago := e.ago_first f_ago
    let s := s.call (.balance ago inum_full)
    let inum := e.balance ago inum_full
    let s := { s.call (.ans_inum inum) with ans_inum := inum }
    let s := { s with _last_ellipse := min inum s._max_last_ellipse }
    let host_start := inum
    if ago = 0 then
      let r := s.reset_nbors e nall inum inum_full ilist host_type
      let s := r.1
      let success := r.2
      if !success then
        ⟨none, host_start, success, s⟩
      else
        s.compute_dispatch eflag vflag eatom vatom host_start success
    else
      s.compute_dispatch eflag vflag eatom vatom host_start success

/-- What a call of the device-list `compute` leaves behind: the returned pointer, given as its
offset from `nbor->host_jlist.begin()` (`none` is `NULL`), the reference arguments
`host_start` and `success`, whether `*ilist` and `*jnum` were assigned, and the object. -/
structure ComputeBuildResult where
  ret : Option Int
  host_start : Int
  success : Bool
  lists_assigned : Bool
  state : BaseEllipsoid

/-- The part of the device-list `compute` after the `if (ago==0) ... else ...`: quaternion
upload, kernel loop, answer read-back. -/
def compute_build_dispatch (s : BaseEllipsoid) (eflag vflag eatom vatom : Bool)
    (host_start : Int) (success : Bool) : ComputeBuildResult :=
  let s := s.call .add_quat_data
  let s := s.call (.loop eflag vflag)
  let s := s.call (.copy_answers eflag vflag eatom vatom none)
  let s := s.call .add_ans_object
  let s := s.call .stop_timer
  ⟨some (-host_start), host_start, success, true, s⟩

/-- Member function `int** compute(ago, inum_full, nall, host_x, host_type, sublo, subhi, tag, nspecial,
special, eflag, vflag, eatom, vatom, host_start, ilist, jnum, cpu_time, success, host_quat)`:
the entry point that builds the neighbor list on the accelerator. -/
def compute_build (e : Ext) (s : BaseEllipsoid) (ago inum_full nall : Int)
    (eflag vflag eatom vatom : Bool) (success : Bool) : ComputeBuildResult :=
  let s := s.acc_timers e
  if inum_full = 0 then
    let host_start := 0
    let s := s.zero_timers
    ⟨none, host_start, success, false, s⟩
  else
    let s := s.call .balance_cpu_time
    let s := s.call (.get_gpu_count ago inum_full)
    let inum := e.get_gpu_count ago inum_full
    let s := { s.call (.ans_inum inum) with ans_inum := inum }
    let s := { s with _last_ellipse := min inum s._max_last_ellipse }
    let host_start := inum
    if ago = 0 then
      let r := s.build_nbor_list e inum (inum_full - inum) nall
      let s := r.1
      let success := r.2
      if !success then
        ⟨none, host_start, success, false, s⟩
      else
        let s := s.call .cast_quat_data
        let s := s.call .start_timer
        s.compute_build_dispatch eflag vflag eatom vatom host_start success
    else
      let s := s.calls [.cast_x_data, .cast_quat_data]
      let s := s.call .start_timer
      let s := s.call .add_x_data
      s.compute_build_dispatch eflag vflag eatom vatom host_start success

/-- The status `device->init(...)` hands to `init_base` for the given arguments. -/
def device_status (e : Ext) (nlocal nall max_nbors maxspecial : Int) : Int :=
  let gpu_nbor : Bool := decide (e.gpu_mode = e.GPU_NEIGH)
  let host_nlocal := e.first_host_count nlocal gpu_nbor
  let _gpu_host : Int := if host_nlocal > 0 then 1 else 0
  e.device_init nlocal host_nlocal nall maxspecial _gpu_host max_nbors

/-- The host particle count `hd_balancer.first_host_count(nlocal,gpu_split,gpu_nbor)` hands to
`init_base` for the given arguments. -/
def host_nlocal (e : Ext) (nlocal : Int) : Int :=
  let gpu_nbor : Bool := decide (e.gpu_mode = e.GPU_NEIGH)
  e.first_host_count nlocal gpu_nbor

/-- The entries of `ilist[0..osize)`. -/
def entries (ilist : Nat → Int) (osize : Int) : List Int :=
  (List.range osize.toNat).map ilist

/-- The test `_host_form[type[a]][type[a]]==ELLIPSE_ELLIPSE` on a particle index `a`. -/
def self_ellipse (e : Ext) (form : Int → Int → Int) (type : Int → Int) (a : Int) : Bool :=
  decide (form (type a) (type a) = e.ELLIPSE_ELLIPSE)

/-- The status a call of `init_base` returns, `none` when it leaves through `exit`. -/
def InitOutcome.status : InitOutcome → Option Int
  | .returned status _ => some status
  | .exited _ _ => none

/-- The code a call of `init_base` passes to `exit`, `none` when it returns. -/
def InitOutcome.exit_code : InitOutcome → Option Int
  | .returned _ _ => none
  | .exited code _ => some code

/-- The object a call of `init_base` leaves behind. -/
def InitOutcome.state : InitOutcome → BaseEllipsoid
  | .returned _ s => s
  | .exited _ s => s

/-- The two member functions that act on the kernel programs. -/
inductive Op where
  | compile_kernels
  | clear_base (e : Ext)

/-- One call. -/
def step (s : BaseEllipsoid) : Op → BaseEllipsoid
  | .compile_kernels => s.compile_kernels
  | .clear_base e => s.clear_base e

/-- A finite sequence of calls, first call first. -/
def run (s : BaseEllipsoid) (ops : List Op) : BaseEllipsoid :=
  ops.foldl step s

/-- Number of `new UCL_Program` calls for program `p` in a trace. -/
def created (p : Program) (tr : List Call) : Nat :=
  tr.countP (fun c => match c with
    | .new_program q => decide (q = p)
    | _ => false)

/-- Number of `delete` calls for program `p` in a trace. -/
def deleted (p : Program) (tr : List Call) : Nat :=
  tr.countP (fun c => match c with
    | .delete_program q => decide (q = p)
    | _ => false)

/-- Whether the pointer of program `p` points at a live object. -/
def live (s : BaseEllipsoid) : Program → Bool
  | .nbor_program => s.nbor_program
  | .ellipsoid_program => s.ellipsoid_program
  | .lj_program => s.lj_program

/-- The accelerator count the balancer hands to the host-list `compute`:
`hd_balancer.balance(hd_balancer.ago_first(f_ago),inum_full,cpu_time)`. -/
def host_list_inum (e : Ext) (f_ago inum_full : Int) : Int :=
  e.balance (e.ago_first f_ago) inum_full

/-- The object when the host-list `compute`, on a step with local particles, reaches the test
`if (ago==0)`: timers accumulated, balancer consulted, `ans->inum(inum)` and `_last_ellipse`
stored. -/
def at_ago_test (e : Ext) (s : BaseEllipsoid) (f_ago inum_full : Int) : BaseEllipsoid :=
  { s with
    timers := e.acc_timers s.timers
    ans_inum := host_list_inum e f_ago inum_full
    _last_ellipse := min (host_list_inum e f_ago inum_full) s._max_last_ellipse
    trace := s.trace ++ [.acc_timers, .ago_first f_ago,
      .balance (e.ago_first f_ago) inum_full, .ans_inum (host_list_inum e f_ago inum_full)] }

/-- The object when the device-list `compute`, on a step with local particles, reaches the
test `if (ago==0)`. -/
def at_ago_test_build (e : Ext) (s : BaseEllipsoid) (ago inum_full : Int) : BaseEllipsoid :=
  { s with
    timers := e.acc_timers s.timers
    ans_inum := e.get_gpu_count ago inum_full
    _last_ellipse := min (e.get_gpu_count ago inum_full) s._max_last_ellipse
    trace := s.trace ++ [.acc_timers, .balance_cpu_time, .get_gpu_count ago inum_full,
      .ans_inum (e.get_gpu_count ago inum_full)] }

/-! ## Concrete inputs -/

/-- Collaborator answers for a concrete call: `ELLIPSE_ELLIPSE` is `3`, `GPU_NEIGH` is `1`,
`UCL_SUCCESS` is `0`; the remaining answers are the arguments. -/
def sample_ext (gpu_mode host_count dev_status alloc ago inum : Int) (atom_ok local_ok : Bool) :
    Ext :=
  { ELLIPSE_ELLIPSE := 3, GPU_NEIGH := 1, UCL_SUCCESS := 0,
    gpu_mode := gpu_mode,
    first_host_count := fun _ _ => host_count,
    threads_per_charge := 1,
    device_init := fun _ _ _ _ _ _ => dev_status,
    pair_block_size := 64,
    olist_alloc := alloc,
    gpu_bytes := 1024, max_gpu_bytes := 2048, replica_me := 0, cast_time_positive := false,
    acc_timers := fun t => t,
    ago_first := fun _ => ago,
    balance := fun _ _ => inum,
    get_gpu_count := fun _ _ => inum,
    max_nbor_loop := fun _ => 8,
    max_nbors := 8,
    resize_atom_ok := fun _ => atom_ok,
    resize_local_ok := fun _ _ _ _ => local_ok,
    resize_local_olist := fun ol => ol,
    nbor_build := fun ok => (ok, 8) }

/-- Form matrix over the types `1` and `2`: both self pairs are `ELLIPSE_ELLIPSE` (`3`), the
pair of type `1` with type `2` is `ELLIPSE_SPHERE` (`2`) or `SPHERE_ELLIPSE` (`1`). -/
def form_mixed_pair : Int → Int → Int :=
  fun i j => if i = j then 3 else if i < j then 2 else 1

/-- Form matrix over the types `1` and `2` in which type `2` is a sphere: only the self pair
of type `1` is `ELLIPSE_ELLIPSE` (`3`). -/
def form_sphere_type : Int → Int → Int :=
  fun i j => if i = 1 ∧ j = 1 then 3 else if i = 2 ∧ j = 2 then 0 else if i < j then 2 else 1

/-- Form matrix in which every pair is `ELLIPSE_ELLIPSE` (`3`). -/
def form_all_ellipse : Int → Int → Int :=
  fun _ _ => 3

/-- Particle `a` has type `1` when `a` is even and type `2` when it is odd. -/
def sample_type : Int → Int :=
  fun a => if a % 2 = 0 then 1 else 2

/-- The index list `0, 1, 2, ...`. -/
def sample_ilist : Nat → Int :=
  fun i => (i : Int)

/-- An object after an earlier cold step with the given form matrix: `_last_ellipse` and
`_max_last_ellipse` are `5`, the answer accumulator holds `5` particles. -/
def sample_state (form : Int → Int → Int) (_multiple_forms : Bool) : BaseEllipsoid :=
  { fresh with
    _compiled := true, nbor_program := true, ellipsoid_program := true, lj_program := true,
    device_bound := true, _block_size := 64, _threads_per_atom := 1,
    _host_form := form, _multiple_forms := _multiple_forms,
    host_olist := fun i => 10 * (i : Int),
    _last_ellipse := 5, _max_last_ellipse := 5, ans_inum := 5 }

/-! ## Loops -/

theorem forLoop_range_flag (lo : Int) (body : Int → Bool → Bool) (Q : Int → Prop)
    (hbody : ∀ i acc, body i acc = true ↔ (acc = true ∨ Q i)) (init : Bool) (n : Nat) :
    (List.range n).foldl (fun acc (k : Nat) => body (lo + (k : Int)) acc) init = true ↔
      (init = true ∨ ∃ k : Nat, k < n ∧ Q (lo + (k : Int))) := by
  induction n with
  | zero => simp
  | succ n ih =>
    rw [List.range_succ, List.foldl_append]
    simp only [List.foldl_cons, List.foldl_nil]
    rw [hbody, ih]
    constructor
    · rintro ((h | ⟨k, hk, hq⟩) | hq)
      · exact Or.inl h
      · exact Or.inr ⟨k, Nat.lt_succ_of_lt hk, hq⟩
      · exact Or.inr ⟨n, Nat.lt_succ_self n, hq⟩
    · rintro (h | ⟨k, hk, hq⟩)
      · exact Or.inl (Or.inl h)
      · rcases Nat.lt_succ_iff_lt_or_eq.mp hk with h1 | h1
        · exact Or.inl (Or.inr ⟨k, h1, hq⟩)
        · subst h1; exact Or.inr hq

theorem forLoop_flag (lo hi : Int) (body : Int → Bool → Bool) (Q : Int → Prop)
    (hbody : ∀ i acc, body i acc = true ↔ (acc = true ∨ Q i)) (init : Bool) :
    forLoop lo hi body init = true ↔ (init = true ∨ ∃ i : Int, lo ≤ i ∧ i < hi ∧ Q i) := by
  unfold forLoop
  rw [forLoop_range_flag lo body Q hbody init]
  constructor
  · rintro (h | ⟨k, hk, hq⟩)
    · exact Or.inl h
    · refine Or.inr ⟨lo + (k : Int), by omega, by omega, hq⟩
  · rintro (h | ⟨i, h1, h2, hq⟩)
    · exact Or.inl h
    · refine Or.inr ⟨(i - lo).toNat, by omega, ?_⟩
      have : lo + ((i - lo).toNat : Int) = i := by omega
      rw [this]; exact hq

theorem form_scan_iff (e : Ext) (h_form : Int → Int → Int) (ntypes : Int) :
    form_scan e h_form ntypes = true ↔
      ∃ i j : Int, 1 ≤ i ∧ i ≤ j ∧ j ≤ ntypes - 1 ∧ h_form i j ≠ e.ELLIPSE_ELLIPSE := by
  unfold form_scan
  rw [forLoop_flag 1 ntypes _
    (fun i => ∃ j : Int, i ≤ j ∧ j < ntypes ∧ h_form i j ≠ e.ELLIPSE_ELLIPSE)]
  · constructor
    · rintro (h | ⟨i, h1, _, j, h3, h4, h5⟩)
      · simp at h
      · exact ⟨i, j, h1, h3, by omega, h5⟩
    · rintro ⟨i, j, h1, h2, h3, h4⟩
      exact Or.inr ⟨i, h1, by omega, j, h2, by omega, h4⟩
  · intro i acc
    rw [forLoop_flag i ntypes _ (fun j => h_form i j ≠ e.ELLIPSE_ELLIPSE)]
    intro j acc
    by_cases h : h_form i j = e.ELLIPSE_ELLIPSE <;> simp [h]

/-- Packing the selected elements of `xs` into a buffer from position `p` on: the counter
advances by the number of selected elements, and the buffer then holds, below the counter,
what it held below `p` followed by the selected elements in their order. -/
theorem pack_foldl (P : Int → Prop) [DecidablePred P] (xs : List Int) (ol : Nat → Int)
    (p : Nat) :
    (xs.foldl (fun (st : (Nat → Int) × Nat) x =>
        if P x then (Function.update st.1 st.2 x, st.2 + 1) else st) (ol, p)).2
      = p + (xs.filter (fun x => decide (P x))).length ∧
    (List.range (p + (xs.filter (fun x => decide (P x))).length)).map
        (xs.foldl (fun (st : (Nat → Int) × Nat) x =>
          if P x then (Function.update st.1 st.2 x, st.2 + 1) else st) (ol, p)).1
      = (List.range p).map ol ++ xs.filter (fun x => decide (P x)) := by
  induction xs generalizing ol p with
  | nil => simp
  | cons x xs ih =>
    by_cases hx : P x
    · have hup : (List.range (p + 1)).map (Function.update ol p x)
          = (List.range p).map ol ++ [x] := by
        rw [List.range_succ, List.map_append]
        congr 1
        · apply List.map_congr_left
          intro k hk
          have : k ≠ p := by
            have := List.mem_range.mp hk
            omega
          simp [Function.update_noteq this]
        · simp
      have h := ih (Function.update ol p x) (p + 1)
      simp only [List.foldl_cons, hx, if_true, List.filter_cons, decide_True,
        List.length_cons]
      refine ⟨by rw [h.1]; omega, ?_⟩
      have e1 : p + ((xs.filter (fun x => decide (P x))).length + 1)
          = p + 1 + (xs.filter (fun x => decide (P x))).length := by omega
      rw [e1, h.2, hup]
      simp
    · have h := ih ol p
      simp only [List.foldl_cons, hx, if_false, List.filter_cons, decide_False]
      exact h

theorem reset_loop_ellipse_eq (e : Ext) (form : Int → Int → Int) (osize : Int)
    (ilist : Nat → Int) (type : Int → Int) (st : (Nat → Int) × Nat) :
    reset_loop_ellipse e form osize ilist type st
      = ((List.range osize.toNat).map ilist).foldl (fun (st : (Nat → Int) × Nat) x =>
          if form (type x) (type x) = e.ELLIPSE_ELLIPSE then
            (Function.update st.1 st.2 x, st.2 + 1) else st) st := by
  unfold reset_loop_ellipse
  rw [List.foldl_map]

theorem reset_loop_other_eq (e : Ext) (form : Int → Int → Int) (osize : Int)
    (ilist : Nat → Int) (type : Int → Int) (st : (Nat → Int) × Nat) :
    reset_loop_other e form osize ilist type st
      = ((List.range osize.toNat).map ilist).foldl (fun (st : (Nat → Int) × Nat) x =>
          if form (type x) (type x) ≠ e.ELLIPSE_ELLIPSE then
            (Function.update st.1 st.2 x, st.2 + 1) else st) st := by
  unfold reset_loop_other
  rw [List.foldl_map]

/-- The buffer and counter after both loops of `reset_nbors`. -/
theorem reset_loops (e : Ext) (form : Int → Int → Int) (osize : Int)
    (ilist : Nat → Int) (type : Int → Int) (ol : Nat → Int) :
    (reset_loop_ellipse e form osize ilist type (ol, 0)).2
      = ((entries ilist osize).filter (self_ellipse e form type)).length ∧
    (List.range osize.toNat).map
        (reset_loop_other e form osize ilist type
          ((reset_loop_ellipse e form osize ilist type (ol, 0)).1,
           (reset_loop_ellipse e form osize ilist type (ol, 0)).2)).1
      = (entries ilist osize).filter (self_ellipse e form type)
        ++ (entries ilist osize).filter (fun a => !self_ellipse e form type a) := by
  have h1 := pack_foldl (fun x => form (type x) (type x) = e.ELLIPSE_ELLIPSE)
    (entries ilist osize) ol 0
  have h2 := pack_foldl (fun x => form (type x) (type x) ≠ e.ELLIPSE_ELLIPSE)
    (entries ilist osize) (reset_loop_ellipse e form osize ilist type (ol, 0)).1
    (reset_loop_ellipse e form osize ilist type (ol, 0)).2
  rw [reset_loop_ellipse_eq, reset_loop_other_eq]
  rw [reset_loop_ellipse_eq] at h2
  have hf1 : (fun x => decide (form (type x) (type x) = e.ELLIPSE_ELLIPSE))
      = self_ellipse e form type := rfl
  have hf2 : (fun x => decide (form (type x) (type x) ≠ e.ELLIPSE_ELLIPSE))
      = (fun a => !self_ellipse e form type a) := by
    funext a; simp [self_ellipse]
  rw [hf1] at h1
  rw [hf2] at h2
  simp only [entries] at h1 h2 ⊢
  simp only [Nat.zero_add, List.range_zero, List.map_nil, List.nil_append] at h1
  obtain ⟨h1a, h1b⟩ := h1
  obtain ⟨_, h2b⟩ := h2
  refine ⟨h1a, ?_⟩
  have hsum := @List.length_eq_length_filter_add _ ((List.range osize.toNat).map ilist)
    (self_ellipse e form type)
  rw [List.length_map, List.length_range] at hsum
  rw [h1a] at h2b ⊢
  rw [← hsum, h1b] at h2b
  exact h2b

/-! ## `reset_nbors` -/

/-- What `reset_nbors` leaves when both resizes succeed and `_multiple_forms` is set. -/
theorem reset_nbors_forms_eq (e : Ext) (s : BaseEllipsoid) (nall inum osize : Int)
    (ilist : Nat → Int) (type : Int → Int)
    (hmf : s._multiple_forms = true)
    (hatom : e.resize_atom_ok nall = true)
    (hlocal : e.resize_local_ok inum 0 (e.max_nbor_loop inum) osize = true) :
    s.reset_nbors e nall inum osize ilist type =
      ({ s with
          nbor_time_avail := true
          host_olist := (reset_loop_other e s._host_form osize ilist type
            ((reset_loop_ellipse e s._host_form osize ilist type
                (e.resize_local_olist s.host_olist, 0)).1,
             (reset_loop_ellipse e s._host_form osize ilist type
                (e.resize_local_olist s.host_olist, 0)).2)).1
          _max_last_ellipse := ((reset_loop_ellipse e s._host_form osize ilist type
                (e.resize_local_olist s.host_olist, 0)).2 : Int)
          _last_ellipse := min inum ((reset_loop_ellipse e s._host_form osize ilist type
                (e.resize_local_olist s.host_olist, 0)).2 : Int)
          trace := s.trace ++ [.reset_nbors nall inum osize, .max_nbor_loop inum,
            .resize_atom nall, .resize_local inum 0 (e.max_nbor_loop inum) osize,
            .get_host inum .host_olist s._block_size,
            .copy_unpacked inum (e.max_nbor_loop inum)] }, true) := by
  simp [reset_nbors, resize_atom, resize_local, call, hmf, hatom, hlocal]

/-- The ordered list, `_max_last_ellipse` and `_last_ellipse` left by `reset_nbors` when
`_multiple_forms` is set and both resizes succeed. -/
theorem reset_nbors_forms_facts (e : Ext) (s : BaseEllipsoid) (nall inum osize : Int)
    (ilist : Nat → Int) (type : Int → Int)
    (hmf : s._multiple_forms = true)
    (hatom : e.resize_atom_ok nall = true)
    (hlocal : e.resize_local_ok inum 0 (e.max_nbor_loop inum) osize = true) :
    (s.reset_nbors e nall inum osize ilist type).2 = true ∧
    (List.range osize.toNat).map (s.reset_nbors e nall inum osize ilist type).1.host_olist
      = (entries ilist osize).filter (self_ellipse e s._host_form type)
        ++ (entries ilist osize).filter (fun a => !self_ellipse e s._host_form type a) ∧
    List.Perm
      ((List.range osize.toNat).map (s.reset_nbors e nall inum osize ilist type).1.host_olist)
      (entries ilist osize) ∧
    (s.reset_nbors e nall inum osize ilist type).1._max_last_ellipse
      = (((entries ilist osize).filter (self_ellipse e s._host_form type)).length : Int) ∧
    (s.reset_nbors e nall inum osize ilist type).1._last_ellipse
      = min inum (((entries ilist osize).filter (self_ellipse e s._host_form type)).length : Int)
    := by
  rw [reset_nbors_forms_eq e s nall inum osize ilist type hmf hatom hlocal]
  have h := reset_loops e s._host_form osize ilist type (e.resize_local_olist s.host_olist)
  obtain ⟨h1, h2⟩ := h
  refine ⟨rfl, ?_, ?_, ?_, ?_⟩
  · exact h2
  · show List.Perm ((List.range osize.toNat).map _) _
    rw [h2]
    exact List.filter_append_perm _ _
  · show ((_ : Nat) : Int) = _
    rw [h1]
  · show min inum ((_ : Nat) : Int) = _
    rw [h1]

/-- C1. In a call of `reset_nbors` with `_multiple_forms` set and both resizes succeeding,
the first `osize` entries of `host_olist` become the entries of `ilist[0..osize)` whose self
pair is `ELLIPSE_ELLIPSE`, in their order, followed by the other entries of `ilist[0..osize)`
in their order; this is a permutation of `ilist[0..osize)`; `_max_last_ellipse` is the number
of `ELLIPSE_ELLIPSE` entries and `_last_ellipse` is the minimum of `inum` and that number. -/
theorem reset_nbors_partitions_by_form (e : Ext) (s : BaseEllipsoid) (nall inum osize : Int)
    (ilist : Nat → Int) (type : Int → Int)
    (hmf : s._multiple_forms = true)
    (hatom : e.resize_atom_ok nall = true)
    (hlocal : e.resize_local_ok inum 0 (e.max_nbor_loop inum) osize = true) :
    (s.reset_nbors e nall inum osize ilist type).2 = true ∧
    (List.range osize.toNat).map (s.reset_nbors e nall inum osize ilist type).1.host_olist
      = (entries ilist osize).filter (self_ellipse e s._host_form type)
        ++ (entries ilist osize).filter (fun a => !self_ellipse e s._host_form type a) ∧
    List.Perm
      ((List.range osize.toNat).map (s.reset_nbors e nall inum osize ilist type).1.host_olist)
      (entries ilist osize) ∧
    (s.reset_nbors e nall inum osize ilist type).1._max_last_ellipse
      = (((entries ilist osize).filter (self_ellipse e s._host_form type)).length : Int) ∧
    (s.reset_nbors e nall inum osize ilist type).1._last_ellipse
      = min inum (((entries ilist osize).filter (self_ellipse e s._host_form type)).length : Int)
    :=
  reset_nbors_forms_facts e s nall inum osize ilist type hmf hatom hlocal

/-- C1, at a concrete call: four particles `0,1,2,3` of types `1,2,1,2`, type `2` a sphere,
`inum = 3`: the ordered list is `0,2,1,3`, two `ELLIPSE_ELLIPSE` entries. -/
theorem reset_nbors_partitions_by_form_witness :
    (sample_state form_sphere_type true)._multiple_forms = true ∧
    (sample_ext 0 0 0 0 0 3 true true).resize_atom_ok 4 = true ∧
    (sample_ext 0 0 0 0 0 3 true true).resize_local_ok 3 0
      ((sample_ext 0 0 0 0 0 3 true true).max_nbor_loop 3) 4 = true ∧
    (entries sample_ilist 4).filter
      (self_ellipse (sample_ext 0 0 0 0 0 3 true true) form_sphere_type sample_type) = [0, 2] ∧
    (List.range (4 : Int).toNat).map ((sample_state form_sphere_type true).reset_nbors
      (sample_ext 0 0 0 0 0 3 true true) 4 3 4 sample_ilist sample_type).1.host_olist
      = [0, 2, 1, 3] ∧
    ((sample_state form_sphere_type true).reset_nbors
      (sample_ext 0 0 0 0 0 3 true true) 4 3 4 sample_ilist sample_type).1._max_last_ellipse = 2 ∧
    ((sample_state form_sphere_type true).reset_nbors
      (sample_ext 0 0 0 0 0 3 true true) 4 3 4 sample_ilist sample_type).1._last_ellipse = 2 := by
  have h := reset_nbors_partitions_by_form (sample_ext 0 0 0 0 0 3 true true)
    (sample_state form_sphere_type true) 4 3 4 sample_ilist sample_type rfl rfl rfl
  have hf : (entries sample_ilist 4).filter
      (self_ellipse (sample_ext 0 0 0 0 0 3 true true) form_sphere_type sample_type) = [0, 2] := by
    decide
  have hg : (entries sample_ilist 4).filter
      (fun a => !self_ellipse (sample_ext 0 0 0 0 0 3 true true) form_sphere_type sample_type a)
      = [1, 3] := by
    decide
  obtain ⟨_, h2, _, h4, h5⟩ := h
  have hform : (sample_state form_sphere_type true)._host_form = form_sphere_type := rfl
  rw [hform] at h2 h4 h5
  rw [hf] at h2 h4 h5
  rw [hg] at h2
  exact ⟨rfl, rfl, rfl, hf, h2, h4, h5⟩

/-! ## `init_base` -/

/-- When `device->init` reports a non-zero status, `init_base` returns it at once. -/
theorem init_base_device_failure (e : Ext) (s : BaseEllipsoid)
    (nlocal nall max_nbors maxspecial : Int) (_screen : Bool) (ntypes : Int)
    (h_form : Int → Int → Int)
    (hdev : device_status e nlocal nall max_nbors maxspecial ≠ 0) :
    init_base e s nlocal nall max_nbors maxspecial _screen ntypes h_form =
      .returned (device_status e nlocal nall max_nbors maxspecial)
        { s with
          nbor_time_avail := false
          screen := _screen
          _threads_per_atom := e.threads_per_charge
          trace := s.trace ++ [.gpu_mode,
            .first_host_count nlocal (decide (e.gpu_mode = e.GPU_NEIGH)),
            .threads_per_charge,
            .device_init nlocal (host_nlocal e nlocal) nall maxspecial
              (if host_nlocal e nlocal > 0 then 1 else 0) max_nbors] } := by
  simp only [device_status] at hdev
  unfold init_base
  dsimp only
  rw [if_pos hdev]
  simp [device_status, host_nlocal, call]

/-- The function `compile_kernels` writes neither `_max_an_bytes` nor `_multiple_forms`. -/
theorem compile_kernels_frame (s : BaseEllipsoid) :
    s.compile_kernels._max_an_bytes = s._max_an_bytes ∧
    s.compile_kernels._multiple_forms = s._multiple_forms := by
  unfold compile_kernels
  split <;> simp [call, calls]

/-- When `device->init` reports `0`, `init_base` runs the form scan, and then leaves through
`exit(1)` when the scan set `_multiple_forms` and the host count is positive, and otherwise
returns `0` or `-3` according to the allocation of `host_olist`. -/
theorem init_base_device_ok (e : Ext) (s : BaseEllipsoid)
    (nlocal nall max_nbors maxspecial : Int) (_screen : Bool) (ntypes : Int)
    (h_form : Int → Int → Int)
    (hdev : device_status e nlocal nall max_nbors maxspecial = 0) :
    (init_base e s nlocal nall max_nbors maxspecial _screen ntypes h_form).state._multiple_forms
      = form_scan e h_form ntypes ∧
    (init_base e s nlocal nall max_nbors maxspecial _screen ntypes h_form).state._max_an_bytes
      = s._max_an_bytes ∧
    (init_base e s nlocal nall max_nbors maxspecial _screen ntypes h_form).status
      = (if form_scan e h_form ntypes = true ∧ 0 < host_nlocal e nlocal then none
         else if e.olist_alloc = e.UCL_SUCCESS then some 0 else some (-3)) ∧
    (init_base e s nlocal nall max_nbors maxspecial _screen ntypes h_form).exit_code
      = (if form_scan e h_form ntypes = true ∧ 0 < host_nlocal e nlocal then some 1
         else none) := by
  simp only [device_status] at hdev
  unfold init_base
  dsimp only
  rw [if_neg (by rw [hdev]; simp)]
  simp only [host_nlocal]
  by_cases hmf : form_scan e h_form ntypes = true
  · by_cases hh : 0 < e.first_host_count nlocal (decide (e.gpu_mode = e.GPU_NEIGH))
    · simp [hmf, hh, InitOutcome.state, InitOutcome.status, InitOutcome.exit_code, call,
        calls, compile_kernels_frame]
    · by_cases ha : e.olist_alloc = e.UCL_SUCCESS <;>
        simp [hmf, hh, ha, InitOutcome.state, InitOutcome.status, InitOutcome.exit_code, call,
          calls, compile_kernels_frame]
  · by_cases ha : e.olist_alloc = e.UCL_SUCCESS <;>
      simp [hmf, ha, InitOutcome.state, InitOutcome.status, InitOutcome.exit_code, call,
        calls, compile_kernels_frame]

/-- C3. After a call of `init_base` that got past the device initialisation and returned,
`_multiple_forms` is true exactly when some pair `i, j` with `1 <= i <= j <= ntypes-1` has
`h_form[i][j] != ELLIPSE_ELLIPSE`. -/
theorem init_base_multiple_forms_iff (e : Ext) (s : BaseEllipsoid)
    (nlocal nall max_nbors maxspecial : Int) (_screen : Bool) (ntypes : Int)
    (h_form : Int → Int → Int) (status : Int) (s1 : BaseEllipsoid)
    (hdev : device_status e nlocal nall max_nbors maxspecial = 0)
    (hret : init_base e s nlocal nall max_nbors maxspecial _screen ntypes h_form
      = .returned status s1) :
    s1._multiple_forms = true ↔
      ∃ i j : Int, 1 ≤ i ∧ i ≤ j ∧ j ≤ ntypes - 1 ∧ h_form i j ≠ e.ELLIPSE_ELLIPSE := by
  have h := (init_base_device_ok e s nlocal nall max_nbors maxspecial _screen ntypes h_form
    hdev).1
  rw [hret] at h
  simp only [InitOutcome.state] at h
  rw [h]
  exact form_scan_iff e h_form ntypes

/-- C3, at a concrete call: three type slots, the pair of type `1` with type `2` is mixed. -/
theorem init_base_multiple_forms_iff_witness :
    device_status (sample_ext 0 0 0 0 0 0 true true) 10 10 8 0 = 0 ∧
    init_base (sample_ext 0 0 0 0 0 0 true true) fresh 10 10 8 0 false 3 form_mixed_pair
      = .returned 0
        (init_base (sample_ext 0 0 0 0 0 0 true true) fresh 10 10 8 0 false 3
          form_mixed_pair).state ∧
    ((init_base (sample_ext 0 0 0 0 0 0 true true) fresh 10 10 8 0 false 3
        form_mixed_pair).state._multiple_forms = true ↔
      ∃ i j : Int, 1 ≤ i ∧ i ≤ j ∧ j ≤ 3 - 1 ∧
        form_mixed_pair i j ≠ (sample_ext 0 0 0 0 0 0 true true).ELLIPSE_ELLIPSE) :=
  ⟨rfl, rfl, init_base_multiple_forms_iff (sample_ext 0 0 0 0 0 0 true true) fresh 10 10 8 0
    false 3 form_mixed_pair 0 _ rfl rfl⟩

/-- C10. When `device->init` yields a non-zero status, `init_base` returns that status, having
neither compiled kernels nor initialised the balancer nor computed `_multiple_forms` (the only
calls are `gpu_mode`, `first_host_count`, `threads_per_charge` and `device->init`). When it
yields `0` and `init_base` returns, the status is `0` exactly when the allocation of
`host_olist` succeeds and `-3` exactly when it fails. `_max_an_bytes` is never assigned. -/
theorem init_base_status (e : Ext) (s : BaseEllipsoid)
    (nlocal nall max_nbors maxspecial : Int) (_screen : Bool) (ntypes : Int)
    (h_form : Int → Int → Int) :
    (device_status e nlocal nall max_nbors maxspecial ≠ 0 →
      (init_base e s nlocal nall max_nbors maxspecial _screen ntypes h_form).status
        = some (device_status e nlocal nall max_nbors maxspecial) ∧
      (init_base e s nlocal nall max_nbors maxspecial _screen ntypes h_form).state._compiled
        = s._compiled ∧
      (init_base e s nlocal nall max_nbors maxspecial _screen ntypes h_form).state._multiple_forms
        = s._multiple_forms ∧
      (init_base e s nlocal nall max_nbors maxspecial _screen ntypes h_form).state.trace
        = s.trace ++ [.gpu_mode,
            .first_host_count nlocal (decide (e.gpu_mode = e.GPU_NEIGH)),
            .threads_per_charge,
            .device_init nlocal (host_nlocal e nlocal) nall maxspecial
              (if host_nlocal e nlocal > 0 then 1 else 0) max_nbors]) ∧
    (device_status e nlocal nall max_nbors maxspecial = 0 →
      ∀ status : Int,
        (init_base e s nlocal nall max_nbors maxspecial _screen ntypes h_form).status
          = some status →
        (status = 0 ↔ e.olist_alloc = e.UCL_SUCCESS) ∧
        (status = -3 ↔ e.olist_alloc ≠ e.UCL_SUCCESS)) ∧
    (init_base e s nlocal nall max_nbors maxspecial _screen ntypes h_form).state._max_an_bytes
      = s._max_an_bytes := by
  refine ⟨?_, ?_, ?_⟩
  · intro hdev
    rw [init_base_device_failure e s nlocal nall max_nbors maxspecial _screen ntypes h_form hdev]
    simp [InitOutcome.status, InitOutcome.state]
  · intro hdev status hst
    have h := (init_base_device_ok e s nlocal nall max_nbors maxspecial _screen ntypes h_form
      hdev).2.2.1
    rw [h] at hst
    by_cases hc : form_scan e h_form ntypes = true ∧ 0 < host_nlocal e nlocal
    · simp [hc] at hst
    · by_cases ha : e.olist_alloc = e.UCL_SUCCESS
      · simp [hc, ha] at hst
        subst hst
        simp [ha]
      · simp [hc, ha] at hst
        subst hst
        simp [ha]
  · by_cases hdev : device_status e nlocal nall max_nbors maxspecial = 0
    · exact (init_base_device_ok e s nlocal nall max_nbors maxspecial _screen ntypes h_form
        hdev).2.1
    · rw [init_base_device_failure e s nlocal nall max_nbors maxspecial _screen ntypes h_form
        hdev]
      simp [InitOutcome.state]

/-- C10, at concrete calls: a device status of `-2`, and a failed allocation of `host_olist`
after a device status of `0`. -/
theorem init_base_status_witness :
    device_status (sample_ext 0 0 (-2) 0 0 0 true true) 10 10 8 0 ≠ 0 ∧
    (init_base (sample_ext 0 0 (-2) 0 0 0 true true) fresh 10 10 8 0 false 3
      form_mixed_pair).status = some (-2) ∧
    device_status (sample_ext 0 0 0 1 0 0 true true) 10 10 8 0 = 0 ∧
    (init_base (sample_ext 0 0 0 1 0 0 true true) fresh 10 10 8 0 false 3
      form_mixed_pair).status = some (-3) ∧
    (((-3 : Int) = 0 ↔ (sample_ext 0 0 0 1 0 0 true true).olist_alloc
        = (sample_ext 0 0 0 1 0 0 true true).UCL_SUCCESS) ∧
     ((-3 : Int) = -3 ↔ (sample_ext 0 0 0 1 0 0 true true).olist_alloc
        ≠ (sample_ext 0 0 0 1 0 0 true true).UCL_SUCCESS)) :=
  ⟨by decide,
   ((init_base_status (sample_ext 0 0 (-2) 0 0 0 true true) fresh 10 10 8 0 false 3
      form_mixed_pair).1 (by decide)).1,
   rfl, rfl,
   (init_base_status (sample_ext 0 0 0 1 0 0 true true) fresh 10 10 8 0 false 3
      form_mixed_pair).2.1 rfl (-3) rfl⟩

/-- With a successful device initialisation and a form matrix that sets `_multiple_forms`,
`init_base` leaves through `exit(1)` exactly when `first_host_count` yields a positive host
count; `gpu_mode` is not consulted by the test. Otherwise it returns `0` or `-3`. -/
theorem init_base_fatal_iff_host_count (e : Ext) (s : BaseEllipsoid)
    (nlocal nall max_nbors maxspecial : Int) (_screen : Bool) (ntypes : Int)
    (h_form : Int → Int → Int)
    (hdev : device_status e nlocal nall max_nbors maxspecial = 0)
    (hmf : form_scan e h_form ntypes = true) :
    ((init_base e s nlocal nall max_nbors maxspecial _screen ntypes h_form).exit_code = some 1
      ↔ 0 < host_nlocal e nlocal) ∧
    ((init_base e s nlocal nall max_nbors maxspecial _screen ntypes h_form).status = none
      ↔ 0 < host_nlocal e nlocal) ∧
    (¬ 0 < host_nlocal e nlocal →
      (init_base e s nlocal nall max_nbors maxspecial _screen ntypes h_form).status
        = some (if e.olist_alloc = e.UCL_SUCCESS then 0 else -3)) := by
  obtain ⟨_, _, h3, h4⟩ :=
    init_base_device_ok e s nlocal nall max_nbors maxspecial _screen ntypes h_form hdev
  rw [h3, h4]
  by_cases hh : 0 < host_nlocal e nlocal
  · simp [hmf, hh]
  · by_cases ha : e.olist_alloc = e.UCL_SUCCESS <;> simp [hmf, hh, ha]

/-- The fatal exit at a concrete call: accelerator-side neighbor mode and two host particles. -/
theorem init_base_fatal_iff_host_count_witness :
    device_status (sample_ext 1 2 0 0 0 0 true true) 10 10 8 0 = 0 ∧
    form_scan (sample_ext 1 2 0 0 0 0 true true) form_mixed_pair 3 = true ∧
    (((init_base (sample_ext 1 2 0 0 0 0 true true) fresh 10 10 8 0 false 3
        form_mixed_pair).exit_code = some 1
      ↔ 0 < host_nlocal (sample_ext 1 2 0 0 0 0 true true) 10) ∧
    ((init_base (sample_ext 1 2 0 0 0 0 true true) fresh 10 10 8 0 false 3
        form_mixed_pair).status = none
      ↔ 0 < host_nlocal (sample_ext 1 2 0 0 0 0 true true) 10) ∧
    (¬ 0 < host_nlocal (sample_ext 1 2 0 0 0 0 true true) 10 →
      (init_base (sample_ext 1 2 0 0 0 0 true true) fresh 10 10 8 0 false 3
        form_mixed_pair).status
        = some (if (sample_ext 1 2 0 0 0 0 true true).olist_alloc
            = (sample_ext 1 2 0 0 0 0 true true).UCL_SUCCESS then 0 else -3))) :=
  ⟨rfl, by decide, init_base_fatal_iff_host_count (sample_ext 1 2 0 0 0 0 true true) fresh
    10 10 8 0 false 3 form_mixed_pair rfl (by decide)⟩

/-- C5. The code at a call the claim covers: the device is in `GPU_NEIGH` mode, the device
initialisation succeeds, the form matrix sets `_multiple_forms`, and `first_host_count` yields
`0` (every particle on the accelerator): `init_base` returns status `0` and does not `exit`. -/
theorem init_base_gpu_neigh_multiple_forms_returns :
    (sample_ext 1 0 0 0 0 0 true true).gpu_mode = (sample_ext 1 0 0 0 0 0 true true).GPU_NEIGH ∧
    device_status (sample_ext 1 0 0 0 0 0 true true) 10 10 8 0 = 0 ∧
    form_scan (sample_ext 1 0 0 0 0 0 true true) form_mixed_pair 3 = true ∧
    (init_base (sample_ext 1 0 0 0 0 0 true true) fresh 10 10 8 0 false 3
      form_mixed_pair).state._multiple_forms = true ∧
    (init_base (sample_ext 1 0 0 0 0 0 true true) fresh 10 10 8 0 false 3
      form_mixed_pair).status = some 0 ∧
    (init_base (sample_ext 1 0 0 0 0 0 true true) fresh 10 10 8 0 false 3
      form_mixed_pair).exit_code = none := by
  decide

/-! ## The two `compute` entry points -/

/-- What `reset_nbors` leaves when a resize fails. -/
theorem reset_nbors_fail_eq (e : Ext) (s : BaseEllipsoid) (nall inum osize : Int)
    (ilist : Nat → Int) (type : Int → Int)
    (hfail : e.resize_atom_ok nall = false ∨
      e.resize_local_ok inum 0 (e.max_nbor_loop inum) osize = false) :
    s.reset_nbors e nall inum osize ilist type =
      ({ s with
          nbor_time_avail := true
          host_olist := e.resize_local_olist s.host_olist
          trace := s.trace ++ [.reset_nbors nall inum osize, .max_nbor_loop inum,
            .resize_atom nall, .resize_local inum 0 (e.max_nbor_loop inum) osize] }, false) := by
  rcases hfail with h | h <;>
    simp [reset_nbors, resize_atom, resize_local, call, h]

/-- What `build_nbor_list` leaves when a resize fails. -/
theorem build_nbor_list_fail_eq (e : Ext) (s : BaseEllipsoid) (inum host_inum nall : Int)
    (hfail : e.resize_atom_ok nall = false ∨
      e.resize_local_ok inum host_inum e.max_nbors 0 = false) :
    s.build_nbor_list e inum host_inum nall =
      ({ s with
          nbor_time_avail := true
          host_olist := e.resize_local_olist s.host_olist
          trace := s.trace ++ [.build_nbor_list inum host_inum nall,
            .resize_atom nall, .resize_local inum host_inum e.max_nbors 0] }, false) := by
  rcases hfail with h | h <;>
    simp [build_nbor_list, resize_atom, resize_local, call, h]

/-- The host-list `compute` on a step without local particles. -/
theorem compute_zero_eq (e : Ext) (s : BaseEllipsoid) (f_ago nall : Int)
    (host_type : Int → Int) (ilist : Nat → Int) (eflag vflag eatom vatom success : Bool) :
    s.compute e f_ago 0 nall host_type ilist eflag vflag eatom vatom success =
      ⟨none, 0, success,
        { s with
          timers := Timers.zeroed
          trace := s.trace ++ [.acc_timers, .zero_timers] }⟩ := by
  simp [compute, acc_timers, zero_timers, call]

/-- The device-list `compute` on a step without local particles. -/
theorem compute_build_zero_eq (e : Ext) (s : BaseEllipsoid) (ago nall : Int)
    (eflag vflag eatom vatom success : Bool) :
    s.compute_build e ago 0 nall eflag vflag eatom vatom success =
      ⟨none, 0, success, false,
        { s with
          timers := Timers.zeroed
          trace := s.trace ++ [.acc_timers, .zero_timers] }⟩ := by
  simp [compute_build, acc_timers, zero_timers, call]

/-- The host-list `compute` on a cold step. -/
theorem compute_cold_eq (e : Ext) (s : BaseEllipsoid) (f_ago inum_full nall : Int)
    (host_type : Int → Int) (ilist : Nat → Int) (eflag vflag eatom vatom success : Bool)
    (hz : inum_full ≠ 0) (hcold : e.ago_first f_ago = 0) :
    s.compute e f_ago inum_full nall host_type ilist eflag vflag eatom vatom success =
      (if !(reset_nbors e (at_ago_test e s f_ago inum_full) nall
            (host_list_inum e f_ago inum_full) inum_full ilist host_type).2 then
        ⟨none, host_list_inum e f_ago inum_full,
          (reset_nbors e (at_ago_test e s f_ago inum_full) nall
            (host_list_inum e f_ago inum_full) inum_full ilist host_type).2,
          (reset_nbors e (at_ago_test e s f_ago inum_full) nall
            (host_list_inum e f_ago inum_full) inum_full ilist host_type).1⟩
      else
        compute_dispatch
          (reset_nbors e (at_ago_test e s f_ago inum_full) nall
            (host_list_inum e f_ago inum_full) inum_full ilist host_type).1
          eflag vflag eatom vatom (host_list_inum e f_ago inum_full)
          (reset_nbors e (at_ago_test e s f_ago inum_full) nall
            (host_list_inum e f_ago inum_full) inum_full ilist host_type).2) := by
  unfold compute
  dsimp only
  rw [if_neg hz, if_pos hcold]
  simp [acc_timers, call, at_ago_test, host_list_inum]

/-- The host-list `compute` on a warm step. -/
theorem compute_warm_eq (e : Ext) (s : BaseEllipsoid) (f_ago inum_full nall : Int)
    (host_type : Int → Int) (ilist : Nat → Int) (eflag vflag eatom vatom success : Bool)
    (hz : inum_full ≠ 0) (hwarm : e.ago_first f_ago ≠ 0) :
    s.compute e f_ago inum_full nall host_type ilist eflag vflag eatom vatom success =
      compute_dispatch (at_ago_test e s f_ago inum_full) eflag vflag eatom vatom
        (host_list_inum e f_ago inum_full) success := by
  unfold compute
  dsimp only
  rw [if_neg hz, if_neg hwarm]
  simp [acc_timers, call, at_ago_test, host_list_inum]

/-- The device-list `compute` on a cold step. -/
theorem compute_build_cold_eq (e : Ext) (s : BaseEllipsoid) (inum_full nall : Int)
    (eflag vflag eatom vatom success : Bool) (hz : inum_full ≠ 0) :
    s.compute_build e 0 inum_full nall eflag vflag eatom vatom success =
      (if !(build_nbor_list e (at_ago_test_build e s 0 inum_full) (e.get_gpu_count 0 inum_full)
            (inum_full - e.get_gpu_count 0 inum_full) nall).2 then
        ⟨none, e.get_gpu_count 0 inum_full,
          (build_nbor_list e (at_ago_test_build e s 0 inum_full) (e.get_gpu_count 0 inum_full)
            (inum_full - e.get_gpu_count 0 inum_full) nall).2, false,
          (build_nbor_list e (at_ago_test_build e s 0 inum_full) (e.get_gpu_count 0 inum_full)
            (inum_full - e.get_gpu_count 0 inum_full) nall).1⟩
      else
        compute_build_dispatch
          (((build_nbor_list e (at_ago_test_build e s 0 inum_full) (e.get_gpu_count 0 inum_full)
            (inum_full - e.get_gpu_count 0 inum_full) nall).1.call .cast_quat_data).call
              .start_timer)
          eflag vflag eatom vatom (e.get_gpu_count 0 inum_full)
          (build_nbor_list e (at_ago_test_build e s 0 inum_full) (e.get_gpu_count 0 inum_full)
            (inum_full - e.get_gpu_count 0 inum_full) nall).2) := by
  unfold compute_build
  dsimp only
  rw [if_neg hz, if_pos rfl]
  simp [acc_timers, call, at_ago_test_build]

/-- The device-list `compute` on a warm step. -/
theorem compute_build_warm_eq (e : Ext) (s : BaseEllipsoid) (ago inum_full nall : Int)
    (eflag vflag eatom vatom success : Bool) (hz : inum_full ≠ 0) (hwarm : ago ≠ 0) :
    s.compute_build e ago inum_full nall eflag vflag eatom vatom success =
      compute_build_dispatch
        ((((at_ago_test_build e s ago inum_full).calls [.cast_x_data, .cast_quat_data]).call
          .start_timer).call .add_x_data)
        eflag vflag eatom vatom (e.get_gpu_count ago inum_full) success := by
  unfold compute_build
  dsimp only
  rw [if_neg hz, if_neg hwarm]
  simp [acc_timers, call, calls, at_ago_test_build]

/-- C2. With `inum_full == 0` both `compute` entry points return `NULL` and set `host_start`
to `0`; the ledger is zeroed; the only calls made are `acc_timers()` and `zero_timers()`, so
the balancer, the neighbor list, the kernels and the answer read-back are not touched; no
other member is written. -/
theorem compute_zero_work (e : Ext) (s : BaseEllipsoid) (f_ago ago nall : Int)
    (host_type : Int → Int) (ilist : Nat → Int) (eflag vflag eatom vatom success : Bool) :
    ((s.compute e f_ago 0 nall host_type ilist eflag vflag eatom vatom success).ret = none ∧
     (s.compute e f_ago 0 nall host_type ilist eflag vflag eatom vatom success).host_start = 0 ∧
     (s.compute e f_ago 0 nall host_type ilist eflag vflag eatom vatom success).state.timers
        = Timers.zeroed ∧
     (s.compute e f_ago 0 nall host_type ilist eflag vflag eatom vatom success).state.trace
        = s.trace ++ [.acc_timers, .zero_timers] ∧
     (s.compute e f_ago 0 nall host_type ilist eflag vflag eatom vatom success).state
        = { s with timers := Timers.zeroed, trace := s.trace ++ [.acc_timers, .zero_timers] }) ∧
    ((s.compute_build e ago 0 nall eflag vflag eatom vatom success).ret = none ∧
     (s.compute_build e ago 0 nall eflag vflag eatom vatom success).host_start = 0 ∧
     (s.compute_build e ago 0 nall eflag vflag eatom vatom success).state.timers
        = Timers.zeroed ∧
     (s.compute_build e ago 0 nall eflag vflag eatom vatom success).state.trace
        = s.trace ++ [.acc_timers, .zero_timers] ∧
     (s.compute_build e ago 0 nall eflag vflag eatom vatom success).state
        = { s with timers := Timers.zeroed, trace := s.trace ++ [.acc_timers, .zero_timers] })
    := by
  rw [compute_zero_eq, compute_build_zero_eq]
  exact ⟨⟨rfl, rfl, rfl, rfl, rfl⟩, ⟨rfl, rfl, rfl, rfl, rfl⟩⟩

/-- C4. On a cold step with local particles in which `resize_atom` or `resize_local` fails,
either `compute` entry point leaves `success` false and returns `NULL`; `host_olist` is as
`resize_local` left it; the calls of the step end with the failed resize, so nothing is
ingested or built (`get_host`, `build_nbor_list`, `copy_unpacked`), nothing is cast or
uploaded, the balancer timer is not started, no kernel loop runs and no answer is read. -/
theorem compute_resize_failure_aborts (e : Ext) (s : BaseEllipsoid) (f_ago inum_full nall : Int)
    (host_type : Int → Int) (ilist : Nat → Int) (eflag vflag eatom vatom success : Bool)
    (hz : inum_full ≠ 0) :
    (e.ago_first f_ago = 0 →
      (e.resize_atom_ok nall = false ∨
        e.resize_local_ok (host_list_inum e f_ago inum_full) 0
          (e.max_nbor_loop (host_list_inum e f_ago inum_full)) inum_full = false) →
      (s.compute e f_ago inum_full nall host_type ilist eflag vflag eatom vatom success).success
        = false ∧
      (s.compute e f_ago inum_full nall host_type ilist eflag vflag eatom vatom success).ret
        = none ∧
      (s.compute e f_ago inum_full nall host_type ilist eflag vflag eatom vatom
        success).state.host_olist = e.resize_local_olist s.host_olist ∧
      (s.compute e f_ago inum_full nall host_type ilist eflag vflag eatom vatom
        success).state.trace
        = s.trace ++ [.acc_timers, .ago_first f_ago, .balance (e.ago_first f_ago) inum_full,
            .ans_inum (host_list_inum e f_ago inum_full),
            .reset_nbors nall (host_list_inum e f_ago inum_full) inum_full,
            .max_nbor_loop (host_list_inum e f_ago inum_full),
            .resize_atom nall,
            .resize_local (host_list_inum e f_ago inum_full) 0
              (e.max_nbor_loop (host_list_inum e f_ago inum_full)) inum_full]) ∧
    ((e.resize_atom_ok nall = false ∨
        e.resize_local_ok (e.get_gpu_count 0 inum_full)
          (inum_full - e.get_gpu_count 0 inum_full) e.max_nbors 0 = false) →
      (s.compute_build e 0 inum_full nall eflag vflag eatom vatom success).success = false ∧
      (s.compute_build e 0 inum_full nall eflag vflag eatom vatom success).ret = none ∧
      (s.compute_build e 0 inum_full nall eflag vflag eatom vatom success).state.host_olist
        = e.resize_local_olist s.host_olist ∧
      (s.compute_build e 0 inum_full nall eflag vflag eatom vatom success).state.trace
        = s.trace ++ [.acc_timers, .balance_cpu_time, .get_gpu_count 0 inum_full,
            .ans_inum (e.get_gpu_count 0 inum_full),
            .build_nbor_list (e.get_gpu_count 0 inum_full)
              (inum_full - e.get_gpu_count 0 inum_full) nall,
            .resize_atom nall,
            .resize_local (e.get_gpu_count 0 inum_full)
              (inum_full - e.get_gpu_count 0 inum_full) e.max_nbors 0]) := by
  constructor
  · intro hcold hfail
    rw [compute_cold_eq e s f_ago inum_full nall host_type ilist eflag vflag eatom vatom success
      hz hcold, reset_nbors_fail_eq e _ nall _ inum_full ilist host_type hfail]
    simp [at_ago_test]
  · intro hfail
    rw [compute_build_cold_eq e s inum_full nall eflag vflag eatom vatom success hz,
      build_nbor_list_fail_eq e _ _ _ nall hfail]
    simp [at_ago_test_build]

/-- C4, at concrete calls: ten local particles, the balancer assigns three of them, the atom
resize fails. -/
theorem compute_resize_failure_aborts_witness :
    (10 : Int) ≠ 0 ∧
    (sample_ext 0 0 0 0 0 3 false true).ago_first 0 = 0 ∧
    (sample_ext 0 0 0 0 0 3 false true).resize_atom_ok 12 = false ∧
    ((sample_state form_all_ellipse false).compute (sample_ext 0 0 0 0 0 3 false true) 0 10 12
      sample_type sample_ilist true false false false true).success = false ∧
    ((sample_state form_all_ellipse false).compute (sample_ext 0 0 0 0 0 3 false true) 0 10 12
      sample_type sample_ilist true false false false true).ret = none ∧
    ((sample_state form_all_ellipse false).compute_build (sample_ext 0 0 0 0 0 3 false true)
      0 10 12 true false false false true).success = false ∧
    ((sample_state form_all_ellipse false).compute_build (sample_ext 0 0 0 0 0 3 false true)
      0 10 12 true false false false true).ret = none :=
  ⟨by decide, rfl, rfl,
   ((compute_resize_failure_aborts (sample_ext 0 0 0 0 0 3 false true)
      (sample_state form_all_ellipse false) 0 10 12 sample_type sample_ilist true false false
      false true (by decide)).1 rfl (Or.inl rfl)).1,
   ((compute_resize_failure_aborts (sample_ext 0 0 0 0 0 3 false true)
      (sample_state form_all_ellipse false) 0 10 12 sample_type sample_ilist true false false
      false true (by decide)).1 rfl (Or.inl rfl)).2.1,
   ((compute_resize_failure_aborts (sample_ext 0 0 0 0 0 3 false true)
      (sample_state form_all_ellipse false) 0 10 12 sample_type sample_ilist true false false
      false true (by decide)).2 (Or.inl rfl)).1,
   ((compute_resize_failure_aborts (sample_ext 0 0 0 0 0 3 false true)
      (sample_state form_all_ellipse false) 0 10 12 sample_type sample_ilist true false false
      false true (by decide)).2 (Or.inl rfl)).2.1⟩

/-- C6 as stated fails: a cold step of the host-list `compute` aborted by a failed atom resize
has changed `_last_ellipse` (from `5` to `3`), `nbor_time_avail` (from false to true) and the
particle count of the answer accumulator (from `5` to `3`). -/
theorem compute_resize_failure_changes_state :
    (10 : Int) ≠ 0 ∧
    (sample_ext 0 0 0 0 0 3 false true).ago_first 0 = 0 ∧
    (sample_ext 0 0 0 0 0 3 false true).resize_atom_ok 12 = false ∧
    ((sample_state form_all_ellipse false).compute (sample_ext 0 0 0 0 0 3 false true) 0 10 12
      sample_type sample_ilist true false false false true).success = false ∧
    (sample_state form_all_ellipse false)._last_ellipse = 5 ∧
    ((sample_state form_all_ellipse false).compute (sample_ext 0 0 0 0 0 3 false true) 0 10 12
      sample_type sample_ilist true false false false true).state._last_ellipse = 3 ∧
    (sample_state form_all_ellipse false).nbor_time_avail = false ∧
    ((sample_state form_all_ellipse false).compute (sample_ext 0 0 0 0 0 3 false true) 0 10 12
      sample_type sample_ilist true false false false true).state.nbor_time_avail = true ∧
    (sample_state form_all_ellipse false).ans_inum = 5 ∧
    ((sample_state form_all_ellipse false).compute (sample_ext 0 0 0 0 0 3 false true) 0 10 12
      sample_type sample_ilist true false false false true).state.ans_inum = 3 ∧
    ((sample_state form_all_ellipse false).compute_build (sample_ext 0 0 0 0 0 3 false true)
      0 10 12 true false false false true).success = false ∧
    ((sample_state form_all_ellipse false).compute_build (sample_ext 0 0 0 0 0 3 false true)
      0 10 12 true false false false true).state._last_ellipse = 3 := by
  decide

/-- C6 amended. On a cold step with local particles in which `resize_atom` or `resize_local`
fails, either `compute` entry point leaves `_max_last_ellipse` unchanged and stores nothing in
`host_olist` (the buffer is as `resize_local` left it); it has stored the balancer's count
with `ans->inum(inum)`, set `_last_ellipse` to `min(inum, _max_last_ellipse)` and
`nbor_time_avail` to true, and consulted the balancer without starting its timer. -/
theorem compute_resize_failure_state (e : Ext) (s : BaseEllipsoid) (f_ago inum_full nall : Int)
    (host_type : Int → Int) (ilist : Nat → Int) (eflag vflag eatom vatom success : Bool)
    (hz : inum_full ≠ 0) :
    (e.ago_first f_ago = 0 →
      (e.resize_atom_ok nall = false ∨
        e.resize_local_ok (host_list_inum e f_ago inum_full) 0
          (e.max_nbor_loop (host_list_inum e f_ago inum_full)) inum_full = false) →
      (s.compute e f_ago inum_full nall host_type ilist eflag vflag eatom vatom
        success).state._max_last_ellipse = s._max_last_ellipse ∧
      (s.compute e f_ago inum_full nall host_type ilist eflag vflag eatom vatom
        success).state.host_olist = e.resize_local_olist s.host_olist ∧
      (s.compute e f_ago inum_full nall host_type ilist eflag vflag eatom vatom
        success).state._last_ellipse
        = min (host_list_inum e f_ago inum_full) s._max_last_ellipse ∧
      (s.compute e f_ago inum_full nall host_type ilist eflag vflag eatom vatom
        success).state.nbor_time_avail = true ∧
      (s.compute e f_ago inum_full nall host_type ilist eflag vflag eatom vatom
        success).state.ans_inum = host_list_inum e f_ago inum_full ∧
      (s.compute e f_ago inum_full nall host_type ilist eflag vflag eatom vatom
        success).state.trace
        = s.trace ++ [.acc_timers, .ago_first f_ago, .balance (e.ago_first f_ago) inum_full,
            .ans_inum (host_list_inum e f_ago inum_full),
            .reset_nbors nall (host_list_inum e f_ago inum_full) inum_full,
            .max_nbor_loop (host_list_inum e f_ago inum_full),
            .resize_atom nall,
            .resize_local (host_list_inum e f_ago inum_full) 0
              (e.max_nbor_loop (host_list_inum e f_ago inum_full)) inum_full]) ∧
    ((e.resize_atom_ok nall = false ∨
        e.resize_local_ok (e.get_gpu_count 0 inum_full)
          (inum_full - e.get_gpu_count 0 inum_full) e.max_nbors 0 = false) →
      (s.compute_build e 0 inum_full nall eflag vflag eatom vatom
        success).state._max_last_ellipse = s._max_last_ellipse ∧
      (s.compute_build e 0 inum_full nall eflag vflag eatom vatom success).state.host_olist
        = e.resize_local_olist s.host_olist ∧
      (s.compute_build e 0 inum_full nall eflag vflag eatom vatom success).state._last_ellipse
        = min (e.get_gpu_count 0 inum_full) s._max_last_ellipse ∧
      (s.compute_build e 0 inum_full nall eflag vflag eatom vatom
        success).state.nbor_time_avail = true ∧
      (s.compute_build e 0 inum_full nall eflag vflag eatom vatom success).state.ans_inum
        = e.get_gpu_count 0 inum_full ∧
      (s.compute_build e 0 inum_full nall eflag vflag eatom vatom success).state.trace
        = s.trace ++ [.acc_timers, .balance_cpu_time, .get_gpu_count 0 inum_full,
            .ans_inum (e.get_gpu_count 0 inum_full),
            .build_nbor_list (e.get_gpu_count 0 inum_full)
              (inum_full - e.get_gpu_count 0 inum_full) nall,
            .resize_atom nall,
            .resize_local (e.get_gpu_count 0 inum_full)
              (inum_full - e.get_gpu_count 0 inum_full) e.max_nbors 0]) := by
  constructor
  · intro hcold hfail
    rw [compute_cold_eq e s f_ago inum_full nall host_type ilist eflag vflag eatom vatom success
      hz hcold, reset_nbors_fail_eq e _ nall _ inum_full ilist host_type hfail]
    simp [at_ago_test]
  · intro hfail
    rw [compute_build_cold_eq e s inum_full nall eflag vflag eatom vatom success hz,
      build_nbor_list_fail_eq e _ _ _ nall hfail]
    simp [at_ago_test_build]

/-- C6 amended, at concrete calls: ten local particles, the balancer assigns three of them,
the local resize fails. -/
theorem compute_resize_failure_state_witness :
    (10 : Int) ≠ 0 ∧
    (sample_ext 0 0 0 0 0 3 true false).ago_first 0 = 0 ∧
    (sample_ext 0 0 0 0 0 3 true false).resize_local_ok 3 0 8 10 = false ∧
    ((sample_state form_all_ellipse false).compute (sample_ext 0 0 0 0 0 3 true false) 0 10 12
      sample_type sample_ilist true false false false true).state._max_last_ellipse = 5 ∧
    ((sample_state form_all_ellipse false).compute_build (sample_ext 0 0 0 0 0 3 true false)
      0 10 12 true false false false true).state._max_last_ellipse = 5 :=
  ⟨by decide, rfl, rfl,
   ((compute_resize_failure_state (sample_ext 0 0 0 0 0 3 true false)
      (sample_state form_all_ellipse false) 0 10 12 sample_type sample_ilist true false false
      false true (by decide)).1 rfl (Or.inr rfl)).1,
   ((compute_resize_failure_state (sample_ext 0 0 0 0 0 3 true false)
      (sample_state form_all_ellipse false) 0 10 12 sample_type sample_ilist true false false
      false true (by decide)).2 (Or.inr rfl)).1⟩

/-- C8 as stated fails: on a warm step on which the balancer assigns three particles, both
`compute` entry points change `_last_ellipse` from `5` to `3`. -/
theorem compute_warm_changes_last_ellipse :
    (10 : Int) ≠ 0 ∧
    (sample_ext 0 0 0 0 1 3 true true).ago_first 1 ≠ 0 ∧
    (sample_state form_all_ellipse false)._last_ellipse = 5 ∧
    ((sample_state form_all_ellipse false).compute (sample_ext 0 0 0 0 1 3 true true) 1 10 12
      sample_type sample_ilist true false false false true).state._last_ellipse = 3 ∧
    ((sample_state form_all_ellipse false).compute_build (sample_ext 0 0 0 0 1 3 true true)
      1 10 12 true false false false true).state._last_ellipse = 3 := by
  decide

/-- C8 amended. On a warm step with local particles neither `reset_nbors` nor
`build_nbor_list` is entered, and `host_olist` and `_max_last_ellipse` keep their values;
`_last_ellipse` is set to `min(inum, _max_last_ellipse)` for the count `inum` the balancer
returns. -/
theorem compute_warm_step (e : Ext) (s : BaseEllipsoid) (f_ago ago inum_full nall : Int)
    (host_type : Int → Int) (ilist : Nat → Int) (eflag vflag eatom vatom success : Bool)
    (hz : inum_full ≠ 0) :
    (e.ago_first f_ago ≠ 0 →
      (s.compute e f_ago inum_full nall host_type ilist eflag vflag eatom vatom
        success).state.host_olist = s.host_olist ∧
      (s.compute e f_ago inum_full nall host_type ilist eflag vflag eatom vatom
        success).state._max_last_ellipse = s._max_last_ellipse ∧
      (s.compute e f_ago inum_full nall host_type ilist eflag vflag eatom vatom
        success).state._last_ellipse
        = min (host_list_inum e f_ago inum_full) s._max_last_ellipse ∧
      (s.compute e f_ago inum_full nall host_type ilist eflag vflag eatom vatom
        success).state.trace
        = s.trace ++ [.acc_timers, .ago_first f_ago, .balance (e.ago_first f_ago) inum_full,
            .ans_inum (host_list_inum e f_ago inum_full),
            .cast_x_data, .cast_quat_data, .start_timer, .add_x_data, .add_quat_data,
            .loop eflag vflag,
            .copy_answers eflag vflag eatom vatom
              (some (if s._multiple_forms then ListRef.host_olist else ListRef.ilist)),
            .add_ans_object, .stop_timer]) ∧
    (ago ≠ 0 →
      (s.compute_build e ago inum_full nall eflag vflag eatom vatom success).state.host_olist
        = s.host_olist ∧
      (s.compute_build e ago inum_full nall eflag vflag eatom vatom
        success).state._max_last_ellipse = s._max_last_ellipse ∧
      (s.compute_build e ago inum_full nall eflag vflag eatom vatom
        success).state._last_ellipse
        = min (e.get_gpu_count ago inum_full) s._max_last_ellipse ∧
      (s.compute_build e ago inum_full nall eflag vflag eatom vatom success).state.trace
        = s.trace ++ [.acc_timers, .balance_cpu_time, .get_gpu_count ago inum_full,
            .ans_inum (e.get_gpu_count ago inum_full),
            .cast_x_data, .cast_quat_data, .start_timer, .add_x_data, .add_quat_data,
            .loop eflag vflag, .copy_answers eflag vflag eatom vatom none,
            .add_ans_object, .stop_timer]) := by
  constructor
  · intro hwarm
    rw [compute_warm_eq e s f_ago inum_full nall host_type ilist eflag vflag eatom vatom success
      hz hwarm]
    simp [compute_dispatch, at_ago_test, call, calls]
  · intro hwarm
    rw [compute_build_warm_eq e s ago inum_full nall eflag vflag eatom vatom success hz hwarm]
    simp [compute_build_dispatch, at_ago_test_build, call, calls]

/-- C8 amended, at concrete calls. -/
theorem compute_warm_step_witness :
    (10 : Int) ≠ 0 ∧
    (sample_ext 0 0 0 0 1 3 true true).ago_first 1 ≠ 0 ∧
    (1 : Int) ≠ 0 ∧
    ((sample_state form_all_ellipse false).compute (sample_ext 0 0 0 0 1 3 true true) 1 10 12
      sample_type sample_ilist true false false false true).state._max_last_ellipse = 5 ∧
    ((sample_state form_all_ellipse false).compute_build (sample_ext 0 0 0 0 1 3 true true)
      1 10 12 true false false false true).state._max_last_ellipse = 5 :=
  ⟨by decide, by decide, by decide,
   ((compute_warm_step (sample_ext 0 0 0 0 1 3 true true)
      (sample_state form_all_ellipse false) 1 1 10 12 sample_type sample_ilist true false false
      false true (by decide)).1 (by decide)).2.1,
   ((compute_warm_step (sample_ext 0 0 0 0 1 3 true true)
      (sample_state form_all_ellipse false) 1 1 10 12 sample_type sample_ilist true false false
      false true (by decide)).2 (by decide)).2.1⟩

/-- C7 as stated fails: two local particles, both with an `ELLIPSE_ELLIPSE` self pair, of
which the balancer assigns one to the accelerator: after the cold step `_max_last_ellipse` is
`2`, above the accelerator count `1`. -/
theorem compute_cold_max_last_ellipse_exceeds_count :
    (sample_state form_mixed_pair true)._multiple_forms = true ∧
    (sample_ext 0 0 0 0 0 1 true true).ago_first 0 = 0 ∧
    host_list_inum (sample_ext 0 0 0 0 0 1 true true) 0 2 = 1 ∧
    ((sample_state form_mixed_pair true).compute (sample_ext 0 0 0 0 0 1 true true) 0 2 2
      sample_type sample_ilist true false false false true).success = true ∧
    ((sample_state form_mixed_pair true).compute (sample_ext 0 0 0 0 0 1 true true) 0 2 2
      sample_type sample_ilist true false false false true).state._max_last_ellipse = 2 ∧
    ¬ ((sample_state form_mixed_pair true).compute (sample_ext 0 0 0 0 0 1 true true) 0 2 2
      sample_type sample_ilist true false false false true).state._max_last_ellipse
        ≤ host_list_inum (sample_ext 0 0 0 0 0 1 true true) 0 2 := by
  decide

/-- C7 amended. After a successful cold step of the host-list `compute` with
`_multiple_forms` set, `_last_ellipse <= _max_last_ellipse <= inum_full` and
`_last_ellipse <= inum` for the count `inum` the balancer returned, the returned list is
`host_olist`, and every index stored at a position below `_last_ellipse` has an
`ELLIPSE_ELLIPSE` self pair. -/
theorem compute_cold_ordering (e : Ext) (s : BaseEllipsoid) (f_ago inum_full nall : Int)
    (host_type : Int → Int) (ilist : Nat → Int) (eflag vflag eatom vatom success : Bool)
    (hz : 0 < inum_full) (hcold : e.ago_first f_ago = 0)
    (hmf : s._multiple_forms = true)
    (hatom : e.resize_atom_ok nall = true)
    (hlocal : e.resize_local_ok (host_list_inum e f_ago inum_full) 0
      (e.max_nbor_loop (host_list_inum e f_ago inum_full)) inum_full = true) :
    (s.compute e f_ago inum_full nall host_type ilist eflag vflag eatom vatom success).success
      = true ∧
    (s.compute e f_ago inum_full nall host_type ilist eflag vflag eatom vatom success).ret
      = some ListRef.host_olist ∧
    (s.compute e f_ago inum_full nall host_type ilist eflag vflag eatom vatom
      success).state._last_ellipse
      ≤ (s.compute e f_ago inum_full nall host_type ilist eflag vflag eatom vatom
        success).state._max_last_ellipse ∧
    (s.compute e f_ago inum_full nall host_type ilist eflag vflag eatom vatom
      success).state._max_last_ellipse ≤ inum_full ∧
    (s.compute e f_ago inum_full nall host_type ilist eflag vflag eatom vatom
      success).state._last_ellipse ≤ host_list_inum e f_ago inum_full ∧
    ∀ k : Nat,
      (k : Int) < (s.compute e f_ago inum_full nall host_type ilist eflag vflag eatom vatom
        success).state._last_ellipse →
      self_ellipse e s._host_form host_type
        ((s.compute e f_ago inum_full nall host_type ilist eflag vflag eatom vatom
          success).state.host_olist k) = true := by
  have hmf1 : (at_ago_test e s f_ago inum_full)._multiple_forms = true := hmf
  obtain ⟨h1, h2, _, h4, h5⟩ := reset_nbors_forms_facts e (at_ago_test e s f_ago inum_full) nall
    (host_list_inum e f_ago inum_full) inum_full ilist host_type hmf1 hatom hlocal
  have hform : (at_ago_test e s f_ago inum_full)._host_form = s._host_form := rfl
  rw [hform] at h2 h4 h5
  have hmf2 : (reset_nbors e (at_ago_test e s f_ago inum_full) nall
      (host_list_inum e f_ago inum_full) inum_full ilist host_type).1._multiple_forms = true := by
    rw [reset_nbors_forms_eq e (at_ago_test e s f_ago inum_full) nall
      (host_list_inum e f_ago inum_full) inum_full ilist host_type hmf1 hatom hlocal]
    exact hmf
  rw [compute_cold_eq e s f_ago inum_full nall host_type ilist eflag vflag eatom vatom success
    (ne_of_gt hz) hcold]
  rw [h1]
  simp only [Bool.not_true, Bool.false_eq_true, if_false]
  have hd : ∀ (t : BaseEllipsoid) (hs : Int) (ok : Bool),
      (compute_dispatch t eflag vflag eatom vatom hs ok).success = ok ∧
      (compute_dispatch t eflag vflag eatom vatom hs ok).ret
        = some (if t._multiple_forms then ListRef.host_olist else ListRef.ilist) ∧
      (compute_dispatch t eflag vflag eatom vatom hs ok).state._last_ellipse = t._last_ellipse ∧
      (compute_dispatch t eflag vflag eatom vatom hs ok).state._max_last_ellipse
        = t._max_last_ellipse ∧
      (compute_dispatch t eflag vflag eatom vatom hs ok).state.host_olist = t.host_olist := by
    intro t hs ok
    simp [compute_dispatch, call, calls]
  obtain ⟨d1, d2, d3, d4, d5⟩ := hd (reset_nbors e (at_ago_test e s f_ago inum_full) nall
      (host_list_inum e f_ago inum_full) inum_full ilist host_type).1
      (host_list_inum e f_ago inum_full) true
  rw [d1, d2, d3, d4, d5, hmf2, h4, h5]
  have hlen : ((entries ilist inum_full).filter (self_ellipse e s._host_form host_type)).length
      ≤ inum_full.toNat := by
    have := List.length_filter_le (self_ellipse e s._host_form host_type) (entries ilist inum_full)
    simpa [entries] using this
  refine ⟨rfl, rfl, min_le_right _ _, by omega, min_le_left _ _, ?_⟩
  intro k hk
  have hk1 : k < ((entries ilist inum_full).filter
      (self_ellipse e s._host_form host_type)).length := by
    have := lt_of_lt_of_le hk (min_le_right _ _)
    exact_mod_cast this
  have hk2 : k < inum_full.toNat := lt_of_lt_of_le hk1 hlen
  have hget : ((List.range inum_full.toNat).map (reset_nbors e (at_ago_test e s f_ago inum_full)
      nall (host_list_inum e f_ago inum_full) inum_full ilist host_type).1.host_olist)[k]?
      = some ((reset_nbors e (at_ago_test e s f_ago inum_full)
      nall (host_list_inum e f_ago inum_full) inum_full ilist host_type).1.host_olist k) := by
    simp [List.getElem?_map, List.getElem?_range hk2]
  rw [h2, List.getElem?_append_left hk1] at hget
  have hmem := List.getElem?_mem hget
  exact (List.mem_filter.mp hmem).2

/-- C7 amended, at a concrete cold step: four particles `0,1,2,3` of types `1,2,1,2`, type `2`
a sphere, three of them assigned to the accelerator. -/
theorem compute_cold_ordering_witness :
    (0 : Int) < 4 ∧
    (sample_ext 0 0 0 0 0 3 true true).ago_first 0 = 0 ∧
    (sample_state form_sphere_type true)._multiple_forms = true ∧
    (sample_ext 0 0 0 0 0 3 true true).resize_atom_ok 4 = true ∧
    (sample_ext 0 0 0 0 0 3 true true).resize_local_ok 3 0 8 4 = true ∧
    ((sample_state form_sphere_type true).compute (sample_ext 0 0 0 0 0 3 true true) 0 4 4
      sample_type sample_ilist true false false false true).state._last_ellipse
      ≤ ((sample_state form_sphere_type true).compute (sample_ext 0 0 0 0 0 3 true true) 0 4 4
        sample_type sample_ilist true false false false true).state._max_last_ellipse ∧
    ((sample_state form_sphere_type true).compute (sample_ext 0 0 0 0 0 3 true true) 0 4 4
      sample_type sample_ilist true false false false true).state._last_ellipse = 2 :=
  ⟨by decide, rfl, rfl, rfl, rfl,
   (compute_cold_ordering (sample_ext 0 0 0 0 0 3 true true)
      (sample_state form_sphere_type true) 0 4 4 sample_type sample_ilist true false false
      false true (by decide) rfl rfl rfl rfl).2.2.1,
   by decide⟩

/-! ## Kernel program lifecycle -/

theorem created_append (p : Program) (a b : List Call) :
    created p (a ++ b) = created p a + created p b := by
  simp [created, List.countP_append]

theorem deleted_append (p : Program) (a b : List Call) :
    deleted p (a ++ b) = deleted p a + deleted p b := by
  simp [deleted, List.countP_append]

/-- Calling `compile_kernels` on an object whose programs are compiled returns at once. -/
theorem compile_kernels_compiled (s : BaseEllipsoid) (h : s._compiled = true) :
    s.compile_kernels = s := by
  simp [compile_kernels, h]

/-- Calling `compile_kernels` on an object whose programs are not compiled creates the three programs
and sets the flag. -/
theorem compile_kernels_fresh (s : BaseEllipsoid) (h : s._compiled = false) :
    s.compile_kernels._compiled = true ∧
    (∀ p, s.compile_kernels.live p = true) ∧
    (∀ p, created p s.compile_kernels.trace = created p s.trace + 1) ∧
    (∀ p, deleted p s.compile_kernels.trace = deleted p s.trace) := by
  refine ⟨?_, ?_, ?_, ?_⟩
  · simp [compile_kernels, h, call, calls]
  · intro p
    cases p <;> simp [compile_kernels, h, call, calls, live]
  · intro p
    cases p <;> simp [compile_kernels, h, call, calls, created, List.countP_cons]
  · intro p
    cases p <;> simp [compile_kernels, h, call, calls, deleted, List.countP_cons]

/-- The function `output_times` touches neither the flag nor the programs. -/
theorem output_times_frame (e : Ext) (s : BaseEllipsoid) :
    (s.output_times e)._compiled = s._compiled ∧
    (∀ p, (s.output_times e).live p = s.live p) ∧
    (∀ p, created p (s.output_times e).trace = created p s.trace) ∧
    (∀ p, deleted p (s.output_times e).trace = deleted p s.trace) := by
  unfold output_times
  dsimp only
  refine ⟨?_, ?_, ?_, ?_⟩
  · split_ifs <;> simp [acc_timers, call, calls]
  · intro p
    cases p <;> split_ifs <;> simp [acc_timers, call, calls, live]
  · intro p
    split_ifs <;> simp [acc_timers, call, calls, created, List.countP_cons]
  · intro p
    split_ifs <;> simp [acc_timers, call, calls, deleted, List.countP_cons]

/-- The function `clear_base` clears the flag; it deletes each program once when the flag was set and not
at all otherwise; it creates no program. -/
theorem clear_base_programs (e : Ext) (s : BaseEllipsoid) :
    (s.clear_base e)._compiled = false ∧
    (∀ p, (s.clear_base e).live p = (if s._compiled then false else s.live p)) ∧
    (∀ p, created p (s.clear_base e).trace = created p s.trace) ∧
    (∀ p, deleted p (s.clear_base e).trace
      = deleted p s.trace + (if s._compiled then 1 else 0)) := by
  obtain ⟨h1, h2, h3, h4⟩ := output_times_frame e s
  unfold clear_base
  dsimp only
  have hc : (call (s.output_times e) Call.olist_clear)._compiled = s._compiled := by
    simp [call, h1]
  rw [hc]
  cases hs : s._compiled
  · simp only [Bool.false_eq_true, if_false]
    refine ⟨?_, ?_, ?_, ?_⟩
    · simp [call, calls, h1, hs]
    · intro p
      have := h2 p
      cases p <;> simp [call, calls, live] at this ⊢ <;> exact this
    · intro p
      have := h3 p
      simp only [calls, call, created_append, this]
      simp [created, List.countP_cons]
    · intro p
      have := h4 p
      simp only [calls, call, deleted_append, this]
      simp [deleted, List.countP_cons]
  · simp only [if_true]
    refine ⟨?_, ?_, ?_, ?_⟩
    · simp [call, calls]
    · intro p
      cases p <;> simp [call, calls, live]
    · intro p
      have := h3 p
      simp only [calls, call, created_append, this]
      simp [created, List.countP_cons]
    · intro p
      have := h4 p
      simp only [calls, call, deleted_append, this]
      cases p <;> simp [deleted, List.countP_cons]

/-- Along every sequence of calls started from an object on which the programs are live
exactly when the flag is set, this stays so, and every program created and not yet deleted is
live. -/
theorem run_programs (ops : List Op) (s : BaseEllipsoid)
    (hlive : ∀ p, s.live p = s._compiled)
    (hcount : ∀ p, created p s.trace = deleted p s.trace + (if s._compiled then 1 else 0)) :
    (∀ p, (run s ops).live p = (run s ops)._compiled) ∧
    (∀ p, created p (run s ops).trace
      = deleted p (run s ops).trace + (if (run s ops)._compiled then 1 else 0)) := by
  induction ops generalizing s with
  | nil => exact ⟨hlive, hcount⟩
  | cons op ops ih =>
    have hstep : run s (op :: ops) = run (step s op) ops := rfl
    rw [hstep]
    apply ih
    · intro p
      cases op with
      | compile_kernels =>
        cases hs : s._compiled
        · obtain ⟨c1, c2, _, _⟩ := compile_kernels_fresh s hs
          simp only [step]
          rw [c1, c2 p]
        · simp only [step]
          rw [compile_kernels_compiled s hs, hlive p]
      | clear_base e =>
        obtain ⟨c1, c2, _, _⟩ := clear_base_programs e s
        simp only [step]
        rw [c1, c2 p, hlive p]
        cases s._compiled <;> rfl
    · intro p
      cases op with
      | compile_kernels =>
        cases hs : s._compiled
        · obtain ⟨c1, _, c3, c4⟩ := compile_kernels_fresh s hs
          have hc := hcount p
          simp only [step]
          simp [c1, c3 p, c4 p, hs] at hc ⊢
          exact hc
        · have hc := hcount p
          simp only [step]
          simp only [compile_kernels_compiled s hs]
          exact hc
      | clear_base e =>
        obtain ⟨c1, _, c3, c4⟩ := clear_base_programs e s
        have hc := hcount p
        simp only [step]
        simp [c1, c3 p, c4 p]
        exact hc

/-- C9. From a freshly constructed object `s0` (`_compiled` false, no program live, no call
made yet) and along every finite sequence `ops` of `compile_kernels` and `clear_base` calls:
each of the three programs is live exactly when `_compiled` is set, and the programs created
exceed the programs deleted by exactly the live one; `compile_kernels` with `_compiled` set
changes nothing, and on any object `t` a second `compile_kernels` in a row changes nothing;
`clear_base` leaves `_compiled` false on any object `t`, leaves no program live, deletes each
program once when it was live and not at all otherwise, so that a second `clear_base` in a row
deletes nothing; `compile_kernels` after `clear_base` sets `_compiled` and creates each
program anew. -/
theorem kernel_program_lifecycle (s0 t : BaseEllipsoid) (ops : List Op) (e : Ext)
    (hflag : s0._compiled = false) (hnone : ∀ p, s0.live p = false) (htrace : s0.trace = []) :
    (∀ p, (run s0 ops).live p = (run s0 ops)._compiled) ∧
    (∀ p, created p (run s0 ops).trace
      = deleted p (run s0 ops).trace + (if (run s0 ops)._compiled then 1 else 0)) ∧
    ((run s0 ops)._compiled = true → (run s0 ops).compile_kernels = run s0 ops) ∧
    (t.compile_kernels.compile_kernels = t.compile_kernels) ∧
    ((t.clear_base e)._compiled = false) ∧
    (∀ p, ((run s0 ops).clear_base e).live p = false) ∧
    (∀ p, deleted p ((run s0 ops).clear_base e).trace
      = deleted p (run s0 ops).trace + (if (run s0 ops).live p then 1 else 0)) ∧
    (∀ p, deleted p (((run s0 ops).clear_base e).clear_base e).trace
      = deleted p ((run s0 ops).clear_base e).trace) ∧
    ((((run s0 ops).clear_base e).compile_kernels)._compiled = true) ∧
    (∀ p, (((run s0 ops).clear_base e).compile_kernels).live p = true) ∧
    (∀ p, created p (((run s0 ops).clear_base e).compile_kernels).trace
      = created p ((run s0 ops).clear_base e).trace + 1) := by
  have hfresh1 : ∀ p, s0.live p = s0._compiled := by
    intro p; rw [hnone p, hflag]
  have hfresh2 : ∀ p, created p s0.trace
      = deleted p s0.trace + (if s0._compiled then 1 else 0) := by
    intro p; simp [htrace, hflag, created, deleted]
  obtain ⟨hl, hc⟩ := run_programs ops s0 hfresh1 hfresh2
  obtain ⟨k1, k2, _, k4⟩ := clear_base_programs e (run s0 ops)
  obtain ⟨_, _, _, m4⟩ := clear_base_programs e ((run s0 ops).clear_base e)
  obtain ⟨n1, n2, n3, _⟩ := compile_kernels_fresh ((run s0 ops).clear_base e) k1
  refine ⟨hl, hc, compile_kernels_compiled _, ?_, (clear_base_programs e t).1, ?_, ?_, ?_,
    n1, n2, n3⟩
  · cases hs : t._compiled
    · exact compile_kernels_compiled _ (compile_kernels_fresh _ hs).1
    · rw [compile_kernels_compiled _ hs, compile_kernels_compiled _ hs]
  · intro p
    have := k2 p
    rw [hl p] at this
    rw [this]
    cases (run s0 ops)._compiled <;> rfl
  · intro p
    have := k4 p
    simp only [hl p]
    exact this
  · intro p
    have := m4 p
    simp only [k1] at this
    simpa using this

/-- C9, on the sequence made of one `compile_kernels` from the constructed object. -/
theorem kernel_program_lifecycle_witness :
    fresh._compiled = false ∧ (∀ p, fresh.live p = false) ∧ fresh.trace = [] ∧
    (run fresh [Op.compile_kernels])._compiled = true ∧
    (run fresh [Op.compile_kernels]).compile_kernels = run fresh [Op.compile_kernels] :=
  ⟨rfl, fun p => by cases p <;> rfl, rfl, rfl,
   (kernel_program_lifecycle fresh fresh [Op.compile_kernels]
    (sample_ext 0 0 0 0 0 3 true true) rfl (fun p => by cases p <;> rfl) rfl).2.2.1 rfl⟩

end BaseEllipsoid

end LAMMPS_AL
